import Mathlib

/-!
Verification of the software 3D renderer (planetary-scene project):
shallow embedding of `camera.rs`, `ray_intersect.rs`, `shaders.rs`,
`texture.rs` and the depth-tested fragment loop of `main.rs`, together
with theorems settling the specification claims.

Floating-point values (`f32`) are modelled as exact rationals where the
relevant code is order/arithmetic only (texture index computation, the
z-buffer comparison loop) and as real numbers where the code uses
`sqrt`, trigonometry or powers (camera, ray-sphere intersection, the
procedural shaders).
-/

namespace SolarSys

/-! Rust numeric cast semantics. -/

/-- Truncation toward zero of a rational, the rounding used by Rust
`as` casts from a float to an integer type. -/
def rustTruncQ (q : ℚ) : ℤ :=
  if 0 ≤ q then ⌊q⌋ else -⌊-q⌋

/-- Rust `f32 as u32`: truncate toward zero, saturating at the bounds
of `u32` (negative values and NaN go to 0). -/
def rustU32ofQ (q : ℚ) : ℕ :=
  (min (max (rustTruncQ q) 0) (2 ^ 32 - 1)).toNat

/-- Rust `f32 as usize` on a 64-bit target: truncate toward zero,
saturating at the bounds of `usize`. -/
def rustUsizeOfQ (q : ℚ) : ℕ :=
  (min (max (rustTruncQ q) 0) (2 ^ 64 - 1)).toNat

/-! Colors.

`color.rs` is not part of the sources at hand; the `Color` carrier is
modelled from the spec: a packed RGBA pixel value with 8-bit channels
(`Color::new(r, g, b)` in the shaders, `Color::new(r, g, b, a)` in the
texture sampler). -/

/-- Modelled from the spec: an RGBA color with four 8-bit channels
(the `Color` type of the missing `color.rs`). -/
structure Color where
  r : ℕ
  g : ℕ
  b : ℕ
  a : ℕ
  deriving DecidableEq, Repr

/-- Modelled from the spec: `Color::new` with an opaque alpha, as used
by the shaders. -/
def Color.new (r g b : ℕ) : Color := ⟨r, g, b, 255⟩

/-- Modelled from the spec: `Color::new` with all four channels, as
used by the texture sampler. -/
def Color.new4 (r g b a : ℕ) : Color := ⟨r, g, b, a⟩

/-! Embedding of `texture.rs`: UV sampling. -/

/-- The decoded image behind a `Texture` (the `image` crate is external
to the project): dimensions plus a pixel lookup returning RGBA
channels. -/
structure TexImage where
  width : ℕ
  height : ℕ
  pixel : ℕ → ℕ → Color

/-- Structure `Texture` from `texture.rs`: wraps a decoded image. -/
structure Texture where
  image : TexImage

/-- Method `Texture::get_color` from `texture.rs`:
`x = (u * width as f32) as u32 % width`,
`y = (v * height as f32) as u32 % height`, then sample the pixel. -/
def Texture.get_color (t : Texture) (u v : ℚ) : Color :=
  let width := t.image.width
  let height := t.image.height
  let x := rustU32ofQ (u * (width : ℚ)) % width
  let y := rustU32ofQ (v * (height : ℚ)) % height
  let p := t.image.pixel x y
  Color.new4 p.r p.g p.b p.a

/-- The spec's reading of `get_color` (for comparison with the code):
sample at `((u * width) mod width, (v * height) mod height)`, the
truncated products wrapped by the mathematical (always nonnegative)
modulus, so that negative UV coordinates wrap around the extent. -/
def Texture.get_color_specWrap (t : Texture) (u v : ℚ) : Color :=
  let width := t.image.width
  let height := t.image.height
  let x := (rustTruncQ (u * (width : ℚ)) % (width : ℤ)).toNat
  let y := (rustTruncQ (v * (height : ℚ)) % (height : ℤ)).toNat
  let p := t.image.pixel x y
  Color.new4 p.r p.g p.b p.a

/-! Embedding of `main.rs`: the depth-tested fragment loop of `render`.

The fragment loop (`main.rs` lines 169-184): for each fragment, take
its pixel coordinates by `as usize` casts, and if they are in bounds
and the fragment's depth passes the epsilon-biased z-test, write the
color and store the fragment's depth in the z-buffer. Only the depth
bookkeeping is relevant to the claims; the shaded color write is
abstracted to the acceptance event itself. -/

/-- A rasterized fragment as consumed by the depth loop of `render`:
screen position (still floating-point) and interpolated depth. -/
structure FragmentQ where
  posX : ℚ
  posY : ℚ
  depth : ℚ
  deriving DecidableEq, Repr

/-- Buffer index of a fragment: `y * width + x` after the `as usize`
casts of `render`. -/
def fragIndex (width : ℕ) (f : FragmentQ) : ℕ :=
  rustUsizeOfQ f.posY * width + rustUsizeOfQ f.posX

/-- The acceptance test of `render`: pixel inside the framebuffer and
`fragment.depth <= zbuffer[y*width+x] + 0.0001`. -/
def accepts (width height : ℕ) (zb : List ℚ) (f : FragmentQ) : Bool :=
  decide (rustUsizeOfQ f.posX < width) &&
  decide (rustUsizeOfQ f.posY < height) &&
  decide (f.depth ≤ zb.getD (fragIndex width f) 0 + 0.0001)

/-- One iteration of the fragment loop of `render`: on acceptance the
z-buffer entry is overwritten with the fragment's depth. -/
def processFragment (width height : ℕ) (zb : List ℚ) (f : FragmentQ) : List ℚ :=
  if accepts width height zb f then zb.set (fragIndex width f) f.depth else zb

/-- The whole fragment loop of `render` over a list of fragments. -/
def processFragments (width height : ℕ) (zb : List ℚ) (fs : List FragmentQ) : List ℚ :=
  fs.foldl (processFragment width height) zb

/-- The depths accepted at buffer index `i` during the fragment loop,
in acceptance order (mirrors `processFragment` step by step). -/
def acceptedAt (width height : ℕ) (zb : List ℚ) (fs : List FragmentQ) (i : ℕ) :
    List ℚ :=
  match fs with
  | [] => []
  | f :: rest =>
    if accepts width height zb f then
      (if fragIndex width f = i then [f.depth] else []) ++
        acceptedAt width height (zb.set (fragIndex width f) f.depth) rest i
    else
      acceptedAt width height zb rest i

/-- The last element of a list, or a default when it is empty. -/
def lastOr (d : ℚ) (l : List ℚ) : ℚ :=
  l.foldl (fun _ x => x) d

theorem getD_set_self (l : List ℚ) (i : ℕ) (a d : ℚ) (hi : i < l.length) :
    (l.set i a).getD i d = a := by
  simp [List.getD_eq_getElem?_getD, List.getElem?_set, hi]

theorem getD_set_ne (l : List ℚ) (i j : ℕ) (a d : ℚ) (h : j ≠ i) :
    (l.set j a).getD i d = l.getD i d := by
  simp [List.getD_eq_getElem?_getD, List.getElem?_set, h]

theorem processFragments_getD (width height : ℕ) (fs : List FragmentQ) :
    ∀ (zb : List ℚ) (i : ℕ), i < zb.length →
      (processFragments width height zb fs).getD i 0 =
        lastOr (zb.getD i 0) (acceptedAt width height zb fs i) := by
  induction fs with
  | nil => intro zb i hi; rfl
  | cons f rest ih =>
    intro zb i hi
    show (processFragments width height (processFragment width height zb f) rest).getD i 0 = _
    by_cases hacc : accepts width height zb f = true
    · have hstep : processFragment width height zb f =
          zb.set (fragIndex width f) f.depth := by
        rw [processFragment, if_pos hacc]
      have hlen : i < (zb.set (fragIndex width f) f.depth).length := by
        simpa using hi
      by_cases hidx : fragIndex width f = i
      · subst hidx
        rw [hstep, ih _ _ hlen, acceptedAt, if_pos hacc, if_pos rfl,
          getD_set_self zb _ f.depth 0 hi]
        rfl
      · rw [hstep, ih _ _ hlen, acceptedAt, if_pos hacc, if_neg hidx,
          getD_set_ne zb i (fragIndex width f) f.depth 0 hidx]
        rfl
    · have hstep : processFragment width height zb f = zb := by
        rw [processFragment, if_neg hacc]
      rw [hstep, ih _ _ hi, acceptedAt, if_neg hacc]

/-- Claim C1 (amended): after the fragment loop of `render`, the depth
buffer entry at a pixel equals the depth of the most recently accepted
fragment for that pixel (the frame-initial value when none was
accepted) — not the minimum accepted depth, which it can exceed by the
bias — and a fragment is accepted (color written, buffer updated) only
if its depth is at most the stored value plus the fixed epsilon
0.0001. -/
theorem C1_depth_buffer (width height : ℕ) (zb : List ℚ)
    (fs : List FragmentQ) (i : ℕ) (hi : i < zb.length) :
    (processFragments width height zb fs).getD i 0 =
      lastOr (zb.getD i 0) (acceptedAt width height zb fs i) ∧
    ∀ f, accepts width height zb f = true →
      f.depth ≤ zb.getD (fragIndex width f) 0 + 0.0001 := by
  refine ⟨processFragments_getD width height fs zb i hi, fun f h => ?_⟩
  rw [accepts] at h
  simp only [Bool.and_eq_true, decide_eq_true_eq] at h
  exact h.2

/-- Witness for C1: the amended invariant evaluated on a one-pixel
framebuffer with a single fragment. -/
theorem C1_depth_buffer_witness :
    (0 : ℕ) < ([10] : List ℚ).length ∧
    ((processFragments 1 1 [10] [⟨0, 0, 3⟩]).getD 0 0 =
        lastOr (([10] : List ℚ).getD 0 0) (acceptedAt 1 1 [10] [⟨0, 0, 3⟩] 0) ∧
      ∀ f, accepts 1 1 [10] f = true →
        f.depth ≤ ([10] : List ℚ).getD (fragIndex 1 f) 0 + 0.0001) :=
  ⟨by norm_num, C1_depth_buffer 1 1 [10] [⟨0, 0, 3⟩] 0 (by norm_num)⟩

/-- Counterexample to C1 as stated: with the frame-initial entry
standing at 1000000, a fragment at depth 5 is accepted, then a second
fragment at depth 5 + 0.0001 also passes the epsilon-biased test and
overwrites the entry, so the final entry is 5 + 0.0001 while the
minimum accepted depth for the pixel is 5. -/
theorem C1_counterexample :
    acceptedAt 1 1 [1000000] [⟨0, 0, 5⟩, ⟨0, 0, 5 + 0.0001⟩] 0 =
      [5, 5 + 0.0001] ∧
    (acceptedAt 1 1 [1000000] [⟨0, 0, 5⟩, ⟨0, 0, 5 + 0.0001⟩] 0).min? =
      some 5 ∧
    (processFragments 1 1 [1000000] [⟨0, 0, 5⟩, ⟨0, 0, 5 + 0.0001⟩]).getD 0 0 =
      5 + 0.0001 ∧
    (5 : ℚ) + 0.0001 ≠ 5 := by
  have hz : rustUsizeOfQ (0 : ℚ) = 0 := by
    simp [rustUsizeOfQ, rustTruncQ]
  have hfi : ∀ d : ℚ, fragIndex 1 ⟨0, 0, d⟩ = 0 := fun d => by
    simp [fragIndex, hz]
  have hacc1 : accepts 1 1 [1000000] ⟨0, 0, 5⟩ = true := by
    norm_num [accepts, hfi, hz]
  have hacc2 : accepts 1 1 [(5 : ℚ)] ⟨0, 0, 5 + 0.0001⟩ = true := by
    norm_num [accepts, hfi, hz]
  have hs1 : processFragment 1 1 [1000000] ⟨0, 0, 5⟩ = [5] := by
    rw [processFragment, if_pos hacc1, hfi]
    rfl
  have hs2 : processFragment 1 1 [(5 : ℚ)] ⟨0, 0, 5 + 0.0001⟩ = [5 + 0.0001] := by
    rw [processFragment, if_pos hacc2, hfi]
    rfl
  have hset1 : List.set [(1000000 : ℚ)] (fragIndex 1 ⟨0, 0, 5⟩) (5 : ℚ) = [5] := by
    rw [hfi]
    rfl
  have hstep : acceptedAt 1 1 [1000000] [⟨0, 0, 5⟩, ⟨0, 0, 5 + 0.0001⟩] 0 =
      [5, 5 + 0.0001] := by
    rw [acceptedAt, if_pos hacc1]
    show (if fragIndex 1 ⟨0, 0, 5⟩ = 0 then [(5 : ℚ)] else []) ++
        acceptedAt 1 1 (List.set [(1000000 : ℚ)] (fragIndex 1 ⟨0, 0, 5⟩) 5)
          [⟨0, 0, 5 + 0.0001⟩] 0 = [5, 5 + 0.0001]
    rw [hset1, if_pos (hfi 5), acceptedAt, if_pos hacc2]
    show [(5 : ℚ)] ++
        ((if fragIndex 1 ⟨0, 0, 5 + 0.0001⟩ = 0 then [(5 : ℚ) + 0.0001] else []) ++
          acceptedAt 1 1 (List.set [(5 : ℚ)] (fragIndex 1 ⟨0, 0, 5 + 0.0001⟩)
            (5 + 0.0001)) [] 0) = [5, 5 + 0.0001]
    rw [if_pos (hfi (5 + 0.0001))]
    rfl
  refine ⟨hstep, by rw [hstep]; norm_num [List.min?], ?_, by norm_num⟩
  show (processFragment 1 1 (processFragment 1 1 [1000000] ⟨0, 0, 5⟩)
      ⟨0, 0, 5 + 0.0001⟩).getD 0 0 = 5 + 0.0001
  rw [hs1, hs2]
  rfl

/-! Claim C8: texture sampling. -/

/-- A concrete 4x4 texture whose pixel at `(x, y)` stores `x` in the
red channel, distinguishing sample positions. -/
def texCheck : Texture :=
  ⟨⟨4, 4, fun x y => Color.new4 x y 0 255⟩⟩

/-- Counterexample to C8 as stated: at `u = -1/2` on a width-4 image,
`u * width = -2`; the code's `as u32` cast saturates to 0 and samples
column 0, while wrapping modulo the extent (the claim) would sample
column `(-2) mod 4 = 2`. -/
theorem C8_counterexample :
    texCheck.get_color (-(1 / 2)) 0 ≠ texCheck.get_color_specWrap (-(1 / 2)) 0 := by
  have hm : (-(1 / 2) : ℚ) * (4 : ℕ) = -2 := by norm_num
  have hcode : rustU32ofQ (-(1 / 2) * ((4 : ℕ) : ℚ)) = 0 := by
    rw [hm]
    have : rustTruncQ (-2) = -2 := by
      rw [rustTruncQ, if_neg (by norm_num)]
      norm_num
    rw [rustU32ofQ, this]
    decide
  have hspec : (rustTruncQ (-(1 / 2) * ((4 : ℕ) : ℚ)) % ((4 : ℕ) : ℤ)).toNat = 2 := by
    rw [hm]
    have : rustTruncQ (-2) = -2 := by
      rw [rustTruncQ, if_neg (by norm_num)]
      norm_num
    rw [this]
    decide
  have hz : rustU32ofQ ((0 : ℚ) * ((4 : ℕ) : ℚ)) = 0 := by
    rw [show ((0 : ℚ) * ((4 : ℕ) : ℚ)) = 0 by norm_num, rustU32ofQ, rustTruncQ]
    norm_num
  have hzs : (rustTruncQ ((0 : ℚ) * ((4 : ℕ) : ℚ)) % ((4 : ℕ) : ℤ)).toNat = 0 := by
    rw [show ((0 : ℚ) * ((4 : ℕ) : ℚ)) = 0 by norm_num, rustTruncQ]
    norm_num
  intro h
  rw [Texture.get_color, Texture.get_color_specWrap] at h
  simp only [texCheck, hcode, hspec, hz, hzs, Color.new4] at h
  exact absurd (congrArg Color.r h) (by norm_num)

/-- Claim C8 (amended): `Texture::get_color` samples at
`((u * width) as u32 mod width, (v * height) as u32 mod height)` where
the cast truncates toward zero and saturates; on nonnegative products
below 2^32 this agrees with the claimed wrap-modulo sampling, but a
negative `u * width` saturates the column index to 0 (so the sample
equals the one at `u = 0`) rather than wrapping. -/
theorem C8_texture_sampling (t : Texture) (u v : ℚ) :
    (0 ≤ u * t.image.width → u * t.image.width < 2 ^ 32 →
      0 ≤ v * t.image.height → v * t.image.height < 2 ^ 32 →
      t.get_color u v = t.get_color_specWrap u v) ∧
    (u * t.image.width < 0 → t.get_color u v = t.get_color 0 v) := by
  constructor
  · intro hu0 hu32 hv0 hv32
    have key : ∀ q : ℚ, 0 ≤ q → q < 2 ^ 32 → ∀ w : ℕ,
        rustU32ofQ q % w = (rustTruncQ q % (w : ℤ)).toNat := by
      intro q hq0 hq32 w
      have ht : rustTruncQ q = ⌊q⌋ := by rw [rustTruncQ, if_pos hq0]
      have hf0 : (0 : ℤ) ≤ ⌊q⌋ := Int.le_floor.2 (by exact_mod_cast hq0)
      have hf32 : ⌊q⌋ < 2 ^ 32 := by
        have := Int.floor_le q
        have : (⌊q⌋ : ℚ) < 2 ^ 32 := lt_of_le_of_lt (Int.floor_le q) hq32
        exact_mod_cast this
      rw [rustU32ofQ, ht]
      have hmax : max ⌊q⌋ 0 = ⌊q⌋ := max_eq_left hf0
      have hmin : min ⌊q⌋ ((2 : ℤ) ^ 32 - 1) = ⌊q⌋ :=
        min_eq_left (by omega)
      rw [hmax, hmin]
      obtain ⟨n, hn⟩ : ∃ n : ℕ, ⌊q⌋ = (n : ℤ) :=
        ⟨⌊q⌋.toNat, (Int.toNat_of_nonneg hf0).symm⟩
      rw [hn, Int.toNat_natCast, ← Int.natCast_mod, Int.toNat_natCast]
    rw [Texture.get_color, Texture.get_color_specWrap,
      key _ hu0 hu32 t.image.width, key _ hv0 hv32 t.image.height]
  · intro hneg
    have hx : rustU32ofQ (u * t.image.width) = 0 := by
      have ht : rustTruncQ (u * t.image.width) =
          -⌊-(u * (t.image.width : ℚ))⌋ := by
        rw [rustTruncQ, if_neg (not_le.2 hneg)]
      have hfl : (0 : ℤ) ≤ ⌊-(u * (t.image.width : ℚ))⌋ :=
        Int.le_floor.2 (by push_cast; linarith)
      rw [rustU32ofQ, ht]
      omega
    have hx0 : rustU32ofQ ((0 : ℚ) * t.image.width) = 0 := by
      rw [rustU32ofQ, rustTruncQ]
      norm_num
    rw [Texture.get_color, Texture.get_color, hx, hx0]

/-- Witness for C8: both branches of the amended statement evaluated on
the concrete 4x4 texture. -/
theorem C8_texture_sampling_witness :
    ((0 : ℚ) ≤ 1 / 2 * (4 : ℕ) ∧ (1 / 2 : ℚ) * (4 : ℕ) < 2 ^ 32 ∧
      (0 : ℚ) ≤ 0 * (4 : ℕ) ∧ (0 : ℚ) * (4 : ℕ) < 2 ^ 32 ∧
      texCheck.get_color (1 / 2) 0 = texCheck.get_color_specWrap (1 / 2) 0) ∧
    ((-(1 / 2) : ℚ) * (4 : ℕ) < 0 ∧
      texCheck.get_color (-(1 / 2)) 0 = texCheck.get_color 0 0) := by
  refine ⟨⟨by norm_num, by norm_num, by norm_num, by norm_num, ?_⟩,
    ⟨by norm_num, ?_⟩⟩
  · exact (C8_texture_sampling texCheck (1 / 2) 0).1 (by norm_num [texCheck])
      (by norm_num [texCheck]) (by norm_num [texCheck]) (by norm_num [texCheck])
  · exact (C8_texture_sampling texCheck (-(1 / 2)) 0).2 (by norm_num [texCheck])

/-! Real-valued part: vectors, camera, ray-sphere, shading.

`f32` values flowing through `sqrt`, trigonometry and powers are
modelled as real numbers. -/

noncomputable section

/-- Three-component vector (`nalgebra_glm::Vec3`), over ℝ. -/
structure V3 where
  x : ℝ
  y : ℝ
  z : ℝ

namespace V3

def zeros : V3 := ⟨0, 0, 0⟩

end V3

instance : Add V3 := ⟨fun a b => ⟨a.x + b.x, a.y + b.y, a.z + b.z⟩⟩
instance : Sub V3 := ⟨fun a b => ⟨a.x - b.x, a.y - b.y, a.z - b.z⟩⟩
instance : Neg V3 := ⟨fun a => ⟨-a.x, -a.y, -a.z⟩⟩
instance : HMul V3 ℝ V3 := ⟨fun a t => ⟨a.x * t, a.y * t, a.z * t⟩⟩
instance : HMul ℝ V3 V3 := ⟨fun t a => ⟨t * a.x, t * a.y, t * a.z⟩⟩

@[simp] theorem V3.add_x (a b : V3) : (a + b).x = a.x + b.x := rfl
@[simp] theorem V3.add_y (a b : V3) : (a + b).y = a.y + b.y := rfl
@[simp] theorem V3.add_z (a b : V3) : (a + b).z = a.z + b.z := rfl
@[simp] theorem V3.sub_x (a b : V3) : (a - b).x = a.x - b.x := rfl
@[simp] theorem V3.sub_y (a b : V3) : (a - b).y = a.y - b.y := rfl
@[simp] theorem V3.sub_z (a b : V3) : (a - b).z = a.z - b.z := rfl
@[simp] theorem V3.neg_x (a : V3) : (-a).x = -a.x := rfl
@[simp] theorem V3.neg_y (a : V3) : (-a).y = -a.y := rfl
@[simp] theorem V3.neg_z (a : V3) : (-a).z = -a.z := rfl
@[simp] theorem V3.mulR_x (a : V3) (t : ℝ) : (a * t).x = a.x * t := rfl
@[simp] theorem V3.mulR_y (a : V3) (t : ℝ) : (a * t).y = a.y * t := rfl
@[simp] theorem V3.mulR_z (a : V3) (t : ℝ) : (a * t).z = a.z * t := rfl
@[simp] theorem V3.rMul_x (a : V3) (t : ℝ) : (t * a).x = t * a.x := rfl
@[simp] theorem V3.rMul_y (a : V3) (t : ℝ) : (t * a).y = t * a.y := rfl
@[simp] theorem V3.rMul_z (a : V3) (t : ℝ) : (t * a).z = t * a.z := rfl

/-- Function `nalgebra_glm::dot` on `Vec3`. -/
def dot (a b : V3) : ℝ := a.x * b.x + a.y * b.y + a.z * b.z

/-- Method `Vec3::magnitude`: Euclidean norm. -/
def V3.magnitude (v : V3) : ℝ := Real.sqrt (dot v v)

/-- Method `Vec3::normalize`: divide each component by the magnitude. -/
def V3.normalize (v : V3) : V3 :=
  ⟨v.x / v.magnitude, v.y / v.magnitude, v.z / v.magnitude⟩

/-- Method `Vec3::lerp` from nalgebra: componentwise `a + (b - a) * t`. -/
def V3.lerp (a b : V3) (t : ℝ) : V3 :=
  ⟨a.x + (b.x - a.x) * t, a.y + (b.y - a.y) * t, a.z + (b.z - a.z) * t⟩

@[simp] theorem V3.add_sub_cancel_left (a b : V3) : a + b - a = b := by
  cases a; cases b
  show V3.mk _ _ _ = _
  simp

theorem magnitude_nonneg (v : V3) : 0 ≤ v.magnitude := Real.sqrt_nonneg _

/-- Function `f32::atan2` (`self = y`, argument `x`), modelled by the complex
argument of `x + y*i`, which has the same quadrant conventions. -/
def atan2 (y x : ℝ) : ℝ := Complex.arg ⟨x, y⟩

/-- Truncation toward zero of a real, the rounding used by Rust `as`
casts and float remainder. -/
def rustTruncR (x : ℝ) : ℤ := if 0 ≤ x then ⌊x⌋ else -⌊-x⌋

/-- Rust `%` on floats: remainder with the sign of the dividend,
`x - y * trunc(x / y)`. -/
def rustRem (x y : ℝ) : ℝ := x - y * (rustTruncR (x / y) : ℝ)

/-- Rust `f32::clamp(lo, hi)`. -/
def rustClamp (x lo hi : ℝ) : ℝ := if x < lo then lo else if hi < x then hi else x

/-- Rust `f32 as u8`: truncate toward zero, saturating into `[0, 255]`. -/
def rustU8ofR (x : ℝ) : ℕ := (min (max (rustTruncR x) 0) 255).toNat

/-- Rust `f32 as usize` applied to a real, saturating into the `usize`
range. -/
def rustUsizeOfR (x : ℝ) : ℕ := (min (max (rustTruncR x) 0) (2 ^ 64 - 1)).toNat

/-! Embedding of `camera.rs`. -/

/-- The `Camera` of `camera.rs`. -/
structure Camera where
  eye : V3
  center : V3
  up : V3
  has_changed : Bool

namespace Camera

/-- Constructor `Camera::new`. -/
def new (eye center up : V3) : Camera := ⟨eye, center, up, true⟩

/-- Method `Camera::orbit` from `camera.rs`: recover yaw/pitch from the
spherical decomposition of `eye - center`, add the deltas (yaw wrapped
by `% 2π`, pitch clamped to `(-π/2 + 0.1, π/2 - 0.1)`), and rebuild
`eye` at the same radius. -/
def orbit (c : Camera) (delta_yaw delta_pitch : ℝ) : Camera :=
  let radius_vector := c.eye - c.center
  let radius := radius_vector.magnitude
  let current_yaw := atan2 radius_vector.z radius_vector.x
  let radius_xz :=
    Real.sqrt (radius_vector.x * radius_vector.x + radius_vector.z * radius_vector.z)
  let current_pitch := atan2 (-radius_vector.y) radius_xz
  let new_yaw := rustRem (current_yaw + delta_yaw) (2 * Real.pi)
  let new_pitch := rustClamp (current_pitch + delta_pitch)
    (-(Real.pi / 2) + 0.1) (Real.pi / 2 - 0.1)
  let new_eye := c.center +
    V3.mk (radius * Real.cos new_yaw * Real.cos new_pitch)
      (-radius * Real.sin new_pitch)
      (radius * Real.sin new_yaw * Real.cos new_pitch)
  { c with eye := new_eye, has_changed := true }

/-- Method `Camera::move_vertical`. -/
def move_vertical (c : Camera) (delta : ℝ) : Camera :=
  { c with
    eye := ⟨c.eye.x, c.eye.y + delta, c.eye.z⟩
    center := ⟨c.center.x, c.center.y + delta, c.center.z⟩
    has_changed := true }

/-- Method `Camera::move_center`: translate both `eye` and `center`, reset
`up` to world-up; `has_changed` is left untouched. -/
def move_center (c : Camera) (movement : V3) : Camera :=
  { c with
    eye := c.eye + movement
    center := c.center + movement
    up := V3.mk 0 1 0 }

/-- Method `Camera::zoom`: move `eye` along the normalized `eye -> center`
direction. -/
def zoom (c : Camera) (delta : ℝ) : Camera :=
  let direction := (c.center - c.eye).normalize
  { c with eye := c.eye + direction * delta, has_changed := true }

end Camera

/-- Magnitude of the eye vector rebuilt by `orbit` is the original
radius, for any yaw/pitch angles. -/
theorem magnitude_orbit_vec (r ny np : ℝ) (hr : 0 ≤ r) :
    (V3.mk (r * Real.cos ny * Real.cos np) (-r * Real.sin np)
      (r * Real.sin ny * Real.cos np)).magnitude = r := by
  have h1 : Real.sin ny ^ 2 + Real.cos ny ^ 2 = 1 := Real.sin_sq_add_cos_sq ny
  have h2 : Real.sin np ^ 2 + Real.cos np ^ 2 = 1 := Real.sin_sq_add_cos_sq np
  have key : dot (V3.mk (r * Real.cos ny * Real.cos np) (-r * Real.sin np)
      (r * Real.sin ny * Real.cos np))
      (V3.mk (r * Real.cos ny * Real.cos np) (-r * Real.sin np)
        (r * Real.sin ny * Real.cos np)) = r ^ 2 := by
    show r * Real.cos ny * Real.cos np * (r * Real.cos ny * Real.cos np) +
        -r * Real.sin np * (-r * Real.sin np) +
        r * Real.sin ny * Real.cos np * (r * Real.sin ny * Real.cos np) = r ^ 2
    linear_combination (r ^ 2 * Real.cos np ^ 2) * h1 + r ^ 2 * h2
  rw [V3.magnitude, key]
  exact Real.sqrt_sq hr

/-- A single `orbit` call preserves the eye-to-center distance. -/
theorem orbit_preserves_radius (c : Camera) (dy dp : ℝ) :
    ((c.orbit dy dp).eye - (c.orbit dy dp).center).magnitude =
      (c.eye - c.center).magnitude := by
  show (c.center + _ - c.center).magnitude = _
  rw [V3.add_sub_cancel_left]
  exact magnitude_orbit_vec _ _ _ (magnitude_nonneg _)

/-- A sequence of `orbit` calls applied in order. -/
def applyOrbits (c : Camera) (l : List (ℝ × ℝ)) : Camera :=
  l.foldl (fun cam p => cam.orbit p.1 p.2) c

theorem applyOrbits_preserves_radius (l : List (ℝ × ℝ)) :
    ∀ c : Camera,
      ((applyOrbits c l).eye - (applyOrbits c l).center).magnitude =
        (c.eye - c.center).magnitude := by
  induction l with
  | nil => intro c; rfl
  | cons p rest ih =>
    intro c
    show ((applyOrbits (c.orbit p.1 p.2) rest).eye -
        (applyOrbits (c.orbit p.1 p.2) rest).center).magnitude = _
    rw [ih (c.orbit p.1 p.2), orbit_preserves_radius]

/-- Claim C3: for every camera with `eye ≠ center` and every sequence
of `orbit` calls, the eye-to-center distance after the sequence equals
the distance before it, exactly over the reals. -/
theorem C3_orbit_preserves_distance (c : Camera) (_h : c.eye ≠ c.center)
    (l : List (ℝ × ℝ)) :
    ((applyOrbits c l).eye - (applyOrbits c l).center).magnitude =
      (c.eye - c.center).magnitude :=
  applyOrbits_preserves_radius l c

/-- Witness for C3: a concrete camera and a two-step orbit sequence. -/
theorem C3_orbit_preserves_distance_witness :
    (Camera.new ⟨0, 50, 150⟩ ⟨0, 0, 0⟩ ⟨0, 1, 0⟩).eye ≠
      (Camera.new ⟨0, 50, 150⟩ ⟨0, 0, 0⟩ ⟨0, 1, 0⟩).center ∧
    ((applyOrbits (Camera.new ⟨0, 50, 150⟩ ⟨0, 0, 0⟩ ⟨0, 1, 0⟩)
        [(1, 2), (3, 4)]).eye -
      (applyOrbits (Camera.new ⟨0, 50, 150⟩ ⟨0, 0, 0⟩ ⟨0, 1, 0⟩)
        [(1, 2), (3, 4)]).center).magnitude =
      ((Camera.new ⟨0, 50, 150⟩ ⟨0, 0, 0⟩ ⟨0, 1, 0⟩).eye -
        (Camera.new ⟨0, 50, 150⟩ ⟨0, 0, 0⟩ ⟨0, 1, 0⟩).center).magnitude := by
  have hne : (Camera.new ⟨0, 50, 150⟩ ⟨0, 0, 0⟩ ⟨0, 1, 0⟩).eye ≠
      (Camera.new ⟨0, 50, 150⟩ ⟨0, 0, 0⟩ ⟨0, 1, 0⟩).center := by
    intro h
    have h150 : (150 : ℝ) = 0 := congrArg V3.z h
    norm_num at h150
  exact ⟨hne, C3_orbit_preserves_distance _ hne [(1, 2), (3, 4)]⟩

/-! Embedding of `ray_intersect.rs`. -/

/-- The `Intersect` hit record of `ray_intersect.rs`. -/
structure Intersect where
  hit : Bool
  distance : ℝ
  point : V3
  normal : V3
  uv : ℝ × ℝ

/-- Constructor `Intersect::new`. -/
def Intersect.new (hit : Bool) (distance : ℝ) (point normal : V3)
    (uv : ℝ × ℝ) : Intersect :=
  ⟨hit, distance, point, normal, uv⟩

/-- The `Sphere` of `ray_intersect.rs` (used as the skybox). -/
structure Sphere where
  center : V3
  radius : ℝ

/-- Constructor `Sphere::new`. -/
def Sphere.new (center : V3) (radius : ℝ) : Sphere := ⟨center, radius⟩

/-- Method `Sphere::ray_intersect` from `ray_intersect.rs`: solve
`a·t² + b·t + c = 0`; a negative discriminant is a miss, otherwise
take `(-b - sqrt(disc)) / (2a)`, the hit point, outward normal and
spherical UV. -/
def Sphere.ray_intersect (s : Sphere) (ray_origin ray_direction : V3) : Intersect :=
  let oc := ray_origin - s.center
  let a := dot ray_direction ray_direction
  let b := 2 * dot oc ray_direction
  let c := dot oc oc - s.radius * s.radius
  let discriminant := b * b - 4 * a * c
  if discriminant < 0 then
    Intersect.new false 0 V3.zeros V3.zeros (0, 0)
  else
    let dist := (-b - Real.sqrt discriminant) / (2 * a)
    let hit_point := ray_origin + ray_direction * dist
    let normal := (hit_point - s.center).normalize
    let u := 0.5 + atan2 normal.z normal.x / (2 * Real.pi)
    let v := 0.5 - Real.arcsin normal.y / Real.pi
    Intersect.new true dist hit_point normal (u, v)

/-- The discriminant computed by `ray_intersect`, written as in the
source. -/
def sphDisc (s : Sphere) (o d : V3) : ℝ :=
  2 * dot (o - s.center) d * (2 * dot (o - s.center) d) -
    4 * dot d d * (dot (o - s.center) (o - s.center) - s.radius * s.radius)

theorem sphDisc_def (s : Sphere) (o d : V3) :
    sphDisc s o d =
      2 * dot (o - s.center) d * (2 * dot (o - s.center) d) -
        4 * dot d d * (dot (o - s.center) (o - s.center) - s.radius * s.radius) :=
  rfl

theorem ray_intersect_hit_iff (s : Sphere) (o d : V3) :
    (s.ray_intersect o d).hit = false ↔ sphDisc s o d < 0 := by
  rw [Sphere.ray_intersect, ← sphDisc_def]
  by_cases hd : sphDisc s o d < 0
  · rw [if_pos hd]
    simpa [Intersect.new] using hd
  · rw [if_neg hd]
    simpa [Intersect.new] using hd

theorem ray_intersect_else (s : Sphere) (o d : V3) (h : ¬sphDisc s o d < 0) :
    (s.ray_intersect o d).hit = true ∧
    (s.ray_intersect o d).distance =
      (-(2 * dot (o - s.center) d) - Real.sqrt (sphDisc s o d)) /
        (2 * dot d d) ∧
    (s.ray_intersect o d).normal =
      (o + d * ((-(2 * dot (o - s.center) d) - Real.sqrt (sphDisc s o d)) /
        (2 * dot d d)) - s.center).normalize := by
  rw [Sphere.ray_intersect, ← sphDisc_def, if_neg h]
  exact ⟨rfl, rfl, rfl⟩

theorem dot_self_nonneg (v : V3) : 0 ≤ dot v v := by
  show 0 ≤ v.x * v.x + v.y * v.y + v.z * v.z
  nlinarith [mul_self_nonneg v.x, mul_self_nonneg v.y, mul_self_nonneg v.z]

/-- Claim C2: `ray_intersect` misses exactly when the discriminant is
negative; a unit ray aimed from outside straight at the center hits at
distance `|origin - center| - radius`; a ray whose perpendicular
offset from the center exceeds the radius misses. -/
theorem C2_ray_sphere (s : Sphere) (o d : V3) :
    ((s.ray_intersect o d).hit = false ↔ sphDisc s o d < 0) ∧
    (0 ≤ s.radius → s.radius < (o - s.center).magnitude →
      d = (s.center - o).normalize →
      (s.ray_intersect o d).hit = true ∧
      (s.ray_intersect o d).distance = (o - s.center).magnitude - s.radius) ∧
    (dot d d = 1 → 0 ≤ s.radius →
      s.radius < Real.sqrt (dot (o - s.center) (o - s.center) -
        dot (o - s.center) d * dot (o - s.center) d) →
      (s.ray_intersect o d).hit = false) := by
  refine ⟨ray_intersect_hit_iff s o d, ?_, ?_⟩
  · intro hr hL hdq
    subst hdq
    set u := o - s.center with hu
    set L := u.magnitude with hLdef
    have hL0 : 0 < L := lt_of_le_of_lt hr hL
    have hdotnn : 0 ≤ dot u u := dot_self_nonneg u
    have hdotuu : dot u u = L * L := (Real.mul_self_sqrt hdotnn).symm
    have hdotuu' : u.x * u.x + u.y * u.y + u.z * u.z = L * L := hdotuu
    have hmagneg : (s.center - o).magnitude = L := by
      rw [hLdef]
      unfold V3.magnitude
      congr 1
      rw [hu]
      show (s.center.x - o.x) * (s.center.x - o.x) +
          (s.center.y - o.y) * (s.center.y - o.y) +
          (s.center.z - o.z) * (s.center.z - o.z) = _
      show _ = (o.x - s.center.x) * (o.x - s.center.x) +
          (o.y - s.center.y) * (o.y - s.center.y) +
          (o.z - s.center.z) * (o.z - s.center.z)
      ring
    have hnx : ((s.center - o).normalize).x = -u.x / L := by
      show (s.center - o).x / (s.center - o).magnitude = -u.x / L
      rw [hmagneg, hu]
      show (s.center.x - o.x) / L = -(o.x - s.center.x) / L
      ring
    have hny : ((s.center - o).normalize).y = -u.y / L := by
      show (s.center - o).y / (s.center - o).magnitude = -u.y / L
      rw [hmagneg, hu]
      show (s.center.y - o.y) / L = -(o.y - s.center.y) / L
      ring
    have hnz : ((s.center - o).normalize).z = -u.z / L := by
      show (s.center - o).z / (s.center - o).magnitude = -u.z / L
      rw [hmagneg, hu]
      show (s.center.z - o.z) / L = -(o.z - s.center.z) / L
      ring
    have hdd : dot ((s.center - o).normalize) ((s.center - o).normalize) = 1 := by
      unfold dot
      rw [hnx, hny, hnz]
      calc -u.x / L * (-u.x / L) + -u.y / L * (-u.y / L) + -u.z / L * (-u.z / L)
          = (u.x * u.x + u.y * u.y + u.z * u.z) / (L * L) := by ring
        _ = (L * L) / (L * L) := by rw [hdotuu']
        _ = 1 := div_self (ne_of_gt (mul_pos hL0 hL0))
    have hod : dot u ((s.center - o).normalize) = -L := by
      unfold dot
      rw [hnx, hny, hnz]
      calc u.x * (-u.x / L) + u.y * (-u.y / L) + u.z * (-u.z / L)
          = -((u.x * u.x + u.y * u.y + u.z * u.z) / L) := by ring
        _ = -((L * L) / L) := by rw [hdotuu']
        _ = -L := by field_simp
    have hdisc : sphDisc s o ((s.center - o).normalize) =
        (2 * s.radius) * (2 * s.radius) := by
      rw [sphDisc_def, ← hu, hod, hdd, hdotuu]
      ring
    have hnotlt : ¬sphDisc s o ((s.center - o).normalize) < 0 := by
      rw [hdisc]
      push_neg
      positivity
    obtain ⟨h1, h2, _⟩ := ray_intersect_else s o _ hnotlt
    refine ⟨h1, ?_⟩
    rw [h2, ← hu, hod, hdd, hdisc,
      Real.sqrt_mul_self (by linarith : (0 : ℝ) ≤ 2 * s.radius)]
    ring
  · intro hdd1 hr0 hperp
    rw [ray_intersect_hit_iff]
    have hP0 : 0 ≤ dot (o - s.center) (o - s.center) -
        dot (o - s.center) d * dot (o - s.center) d := by
      have hdd1' : d.x * d.x + d.y * d.y + d.z * d.z = 1 := hdd1
      show (0 : ℝ) ≤
        ((o - s.center).x * (o - s.center).x + (o - s.center).y * (o - s.center).y +
          (o - s.center).z * (o - s.center).z) -
        ((o - s.center).x * d.x + (o - s.center).y * d.y + (o - s.center).z * d.z) *
          ((o - s.center).x * d.x + (o - s.center).y * d.y + (o - s.center).z * d.z)
      nlinarith [sq_nonneg ((o - s.center).x * d.y - (o - s.center).y * d.x),
        sq_nonneg ((o - s.center).x * d.z - (o - s.center).z * d.x),
        sq_nonneg ((o - s.center).y * d.z - (o - s.center).z * d.y),
        hdd1']
    have hr2 : s.radius * s.radius <
        dot (o - s.center) (o - s.center) -
          dot (o - s.center) d * dot (o - s.center) d := by
      have h1 := mul_self_lt_mul_self hr0 hperp
      rwa [Real.mul_self_sqrt hP0] at h1
    rw [sphDisc_def, hdd1]
    nlinarith [hr2]

/-- Claim C9: a ray starting strictly inside the sphere (negative `c`
coefficient) always hits, at a strictly negative distance (the smaller
root, behind the origin); in particular a unit ray cast from the
sphere's own center — the skybox configuration — hits at distance
`-radius` with normal opposite to the ray direction. -/
theorem C9_ray_from_inside (s : Sphere) (o d : V3) :
    (dot d d = 1 →
      dot (o - s.center) (o - s.center) - s.radius * s.radius < 0 →
      (s.ray_intersect o d).hit = true ∧ (s.ray_intersect o d).distance < 0) ∧
    (dot d d = 1 → 0 < s.radius →
      (s.ray_intersect s.center d).hit = true ∧
      (s.ray_intersect s.center d).distance = -s.radius ∧
      (s.ray_intersect s.center d).normal = -d) := by
  constructor
  · intro hdd1 hc
    have hdiscpos : (2 * dot (o - s.center) d) * (2 * dot (o - s.center) d) <
        sphDisc s o d := by
      rw [sphDisc_def, hdd1]
      nlinarith [hc]
    have hnot : ¬sphDisc s o d < 0 := by
      push_neg
      nlinarith [sq_nonneg (2 * dot (o - s.center) d), hdiscpos]
    obtain ⟨h1, h2, _⟩ := ray_intersect_else s o d hnot
    refine ⟨h1, ?_⟩
    rw [h2, hdd1]
    have habs : |2 * dot (o - s.center) d| < Real.sqrt (sphDisc s o d) := by
      rw [show |2 * dot (o - s.center) d| =
          Real.sqrt ((2 * dot (o - s.center) d) * (2 * dot (o - s.center) d))
          from (Real.sqrt_mul_self_eq_abs _).symm]
      exact Real.sqrt_lt_sqrt (mul_self_nonneg _) hdiscpos
    have hnum : -(2 * dot (o - s.center) d) - Real.sqrt (sphDisc s o d) < 0 := by
      have := neg_abs_le (2 * dot (o - s.center) d)
      linarith [habs, this]
    have h2pos : (0 : ℝ) < 2 * 1 := by norm_num
    exact div_neg_of_neg_of_pos hnum h2pos
  · intro hdd1 hrpos
    have hoc0 : dot (s.center - s.center) d = 0 := by
      unfold dot
      simp
    have hocc0 : dot (s.center - s.center) (s.center - s.center) = 0 := by
      unfold dot
      simp
    have hdisc : sphDisc s s.center d = (2 * s.radius) * (2 * s.radius) := by
      rw [sphDisc_def, hdd1, hoc0, hocc0]
      ring
    have hnot : ¬sphDisc s s.center d < 0 := by
      rw [hdisc]
      push_neg
      positivity
    obtain ⟨h1, h2, h3⟩ := ray_intersect_else s s.center d hnot
    have hsq : Real.sqrt ((2 * s.radius) * (2 * s.radius)) = 2 * s.radius :=
      Real.sqrt_mul_self (by linarith)
    rw [hoc0, hdd1, hdisc, hsq] at h2
    rw [hoc0, hdd1, hdisc, hsq] at h3
    have harg : (-(2 * (0 : ℝ)) - 2 * s.radius) / (2 * 1) = -s.radius := by
      ring
    rw [harg] at h2 h3
    refine ⟨h1, h2, ?_⟩
    rw [h3, V3.add_sub_cancel_left]
    have hdd1' : d.x * d.x + d.y * d.y + d.z * d.z = 1 := hdd1
    have hdotm : dot (d * (-s.radius)) (d * (-s.radius)) =
        s.radius * s.radius := by
      show d.x * -s.radius * (d.x * -s.radius) + d.y * -s.radius * (d.y * -s.radius) +
        d.z * -s.radius * (d.z * -s.radius) = s.radius * s.radius
      linear_combination (s.radius * s.radius) * hdd1'
    have hmag : (d * (-s.radius)).magnitude = s.radius := by
      rw [V3.magnitude, hdotm]
      exact Real.sqrt_mul_self hrpos.le
    show V3.mk ((d * (-s.radius)).x / (d * (-s.radius)).magnitude)
        ((d * (-s.radius)).y / (d * (-s.radius)).magnitude)
        ((d * (-s.radius)).z / (d * (-s.radius)).magnitude) = -d
    rw [hmag]
    show V3.mk (d.x * -s.radius / s.radius) (d.y * -s.radius / s.radius)
        (d.z * -s.radius / s.radius) = -d
    have hrne : s.radius ≠ 0 := ne_of_gt hrpos
    have hx : d.x * -s.radius / s.radius = -d.x := by
      field_simp
    have hy : d.y * -s.radius / s.radius = -d.y := by
      field_simp
    have hz : d.z * -s.radius / s.radius = -d.z := by
      field_simp
    rw [hx, hy, hz]
    rfl

theorem sqrt_nine : Real.sqrt 9 = 3 := by
  rw [show (9 : ℝ) = 3 ^ 2 by norm_num]
  exact Real.sqrt_sq (by norm_num)

theorem mag_003 : ((⟨0, 0, 3⟩ : V3) - ⟨0, 0, 0⟩).magnitude = 3 := by
  have h9 : dot ((⟨0, 0, 3⟩ : V3) - ⟨0, 0, 0⟩) ((⟨0, 0, 3⟩ : V3) - ⟨0, 0, 0⟩) =
      9 := by
    norm_num [dot]
  rw [V3.magnitude, h9, sqrt_nine]

/-- Witness for C2: the unit sphere at the origin, a ray from `(0,0,3)`
aimed at the center (hits at distance 2 = 3 - 1), and a perpendicular
ray from the same origin (misses). -/
theorem C2_ray_sphere_witness :
    ((0 : ℝ) ≤ (Sphere.mk ⟨0, 0, 0⟩ 1).radius ∧
      (Sphere.mk ⟨0, 0, 0⟩ 1).radius <
        ((⟨0, 0, 3⟩ : V3) - (Sphere.mk ⟨0, 0, 0⟩ 1).center).magnitude ∧
      (⟨0, 0, -1⟩ : V3) = ((Sphere.mk ⟨0, 0, 0⟩ 1).center - ⟨0, 0, 3⟩).normalize ∧
      ((Sphere.mk ⟨0, 0, 0⟩ 1).ray_intersect ⟨0, 0, 3⟩ ⟨0, 0, -1⟩).hit = true ∧
      ((Sphere.mk ⟨0, 0, 0⟩ 1).ray_intersect ⟨0, 0, 3⟩ ⟨0, 0, -1⟩).distance =
        ((⟨0, 0, 3⟩ : V3) - (Sphere.mk ⟨0, 0, 0⟩ 1).center).magnitude -
          (Sphere.mk ⟨0, 0, 0⟩ 1).radius) ∧
    (dot (⟨0, 1, 0⟩ : V3) ⟨0, 1, 0⟩ = 1 ∧
      (0 : ℝ) ≤ (Sphere.mk ⟨0, 0, 0⟩ 1).radius ∧
      (Sphere.mk ⟨0, 0, 0⟩ 1).radius <
        Real.sqrt (dot ((⟨0, 0, 3⟩ : V3) - (Sphere.mk ⟨0, 0, 0⟩ 1).center)
            ((⟨0, 0, 3⟩ : V3) - (Sphere.mk ⟨0, 0, 0⟩ 1).center) -
          dot ((⟨0, 0, 3⟩ : V3) - (Sphere.mk ⟨0, 0, 0⟩ 1).center) ⟨0, 1, 0⟩ *
            dot ((⟨0, 0, 3⟩ : V3) - (Sphere.mk ⟨0, 0, 0⟩ 1).center) ⟨0, 1, 0⟩) ∧
      ((Sphere.mk ⟨0, 0, 0⟩ 1).ray_intersect ⟨0, 0, 3⟩ ⟨0, 1, 0⟩).hit = false) := by
  have hr : (0 : ℝ) ≤ (Sphere.mk (⟨0, 0, 0⟩ : V3) 1).radius := by norm_num
  have hL : (Sphere.mk (⟨0, 0, 0⟩ : V3) 1).radius <
      ((⟨0, 0, 3⟩ : V3) - (Sphere.mk (⟨0, 0, 0⟩ : V3) 1).center).magnitude := by
    show (1 : ℝ) < ((⟨0, 0, 3⟩ : V3) - ⟨0, 0, 0⟩).magnitude
    rw [mag_003]
    norm_num
  have hdq : (⟨0, 0, -1⟩ : V3) =
      ((Sphere.mk (⟨0, 0, 0⟩ : V3) 1).center - ⟨0, 0, 3⟩).normalize := by
    have hm : ((⟨0, 0, 0⟩ : V3) - ⟨0, 0, 3⟩).magnitude = 3 := by
      have h9 : dot ((⟨0, 0, 0⟩ : V3) - ⟨0, 0, 3⟩) ((⟨0, 0, 0⟩ : V3) - ⟨0, 0, 3⟩) =
          9 := by
        norm_num [dot]
      rw [V3.magnitude, h9, sqrt_nine]
    show _ = ((⟨0, 0, 0⟩ : V3) - ⟨0, 0, 3⟩).normalize
    rw [V3.normalize, hm]
    norm_num [V3.mk.injEq]
  have hdd1 : dot (⟨0, 1, 0⟩ : V3) ⟨0, 1, 0⟩ = 1 := by
    simp [dot]
  have hperp : (Sphere.mk (⟨0, 0, 0⟩ : V3) 1).radius <
      Real.sqrt (dot ((⟨0, 0, 3⟩ : V3) - (Sphere.mk (⟨0, 0, 0⟩ : V3) 1).center)
          ((⟨0, 0, 3⟩ : V3) - (Sphere.mk (⟨0, 0, 0⟩ : V3) 1).center) -
        dot ((⟨0, 0, 3⟩ : V3) - (Sphere.mk (⟨0, 0, 0⟩ : V3) 1).center) ⟨0, 1, 0⟩ *
          dot ((⟨0, 0, 3⟩ : V3) - (Sphere.mk (⟨0, 0, 0⟩ : V3) 1).center)
            ⟨0, 1, 0⟩) := by
    have harg : dot ((⟨0, 0, 3⟩ : V3) - ⟨0, 0, 0⟩) ((⟨0, 0, 3⟩ : V3) - ⟨0, 0, 0⟩) -
        dot ((⟨0, 0, 3⟩ : V3) - ⟨0, 0, 0⟩) ⟨0, 1, 0⟩ *
          dot ((⟨0, 0, 3⟩ : V3) - ⟨0, 0, 0⟩) ⟨0, 1, 0⟩ = 9 := by
      simp [dot]
      norm_num
    show (1 : ℝ) < _
    rw [show (dot ((⟨0, 0, 3⟩ : V3) - (Sphere.mk (⟨0, 0, 0⟩ : V3) 1).center)
          ((⟨0, 0, 3⟩ : V3) - (Sphere.mk (⟨0, 0, 0⟩ : V3) 1).center) -
        dot ((⟨0, 0, 3⟩ : V3) - (Sphere.mk (⟨0, 0, 0⟩ : V3) 1).center) ⟨0, 1, 0⟩ *
          dot ((⟨0, 0, 3⟩ : V3) - (Sphere.mk (⟨0, 0, 0⟩ : V3) 1).center)
            ⟨0, 1, 0⟩) = 9 from harg, sqrt_nine]
    norm_num
  exact ⟨⟨hr, hL, hdq,
      (C2_ray_sphere (Sphere.mk ⟨0, 0, 0⟩ 1) ⟨0, 0, 3⟩ ⟨0, 0, -1⟩).2.1 hr hL hdq⟩,
    hdd1, hr, hperp,
      (C2_ray_sphere (Sphere.mk ⟨0, 0, 0⟩ 1) ⟨0, 0, 3⟩ ⟨0, 1, 0⟩).2.2 hdd1 hr hperp⟩

/-- Witness for C9: a sphere of radius 2 at the origin; a ray from the
interior point `(0,0,1)` hits at negative distance, and a ray from the
center itself hits at distance `-2` with reversed normal. -/
theorem C9_ray_from_inside_witness :
    (dot (⟨0, 0, 1⟩ : V3) ⟨0, 0, 1⟩ = 1 ∧
      dot ((⟨0, 0, 1⟩ : V3) - (Sphere.mk ⟨0, 0, 0⟩ 2).center)
          ((⟨0, 0, 1⟩ : V3) - (Sphere.mk ⟨0, 0, 0⟩ 2).center) -
        (Sphere.mk ⟨0, 0, 0⟩ 2).radius * (Sphere.mk ⟨0, 0, 0⟩ 2).radius < 0 ∧
      ((Sphere.mk ⟨0, 0, 0⟩ 2).ray_intersect ⟨0, 0, 1⟩ ⟨0, 0, 1⟩).hit = true ∧
      ((Sphere.mk ⟨0, 0, 0⟩ 2).ray_intersect ⟨0, 0, 1⟩ ⟨0, 0, 1⟩).distance < 0) ∧
    (dot (⟨1, 0, 0⟩ : V3) ⟨1, 0, 0⟩ = 1 ∧ (0 : ℝ) < (Sphere.mk ⟨0, 0, 0⟩ 2).radius ∧
      ((Sphere.mk ⟨0, 0, 0⟩ 2).ray_intersect (Sphere.mk ⟨0, 0, 0⟩ 2).center
        ⟨1, 0, 0⟩).hit = true ∧
      ((Sphere.mk ⟨0, 0, 0⟩ 2).ray_intersect (Sphere.mk ⟨0, 0, 0⟩ 2).center
        ⟨1, 0, 0⟩).distance = -(Sphere.mk ⟨0, 0, 0⟩ 2).radius ∧
      ((Sphere.mk ⟨0, 0, 0⟩ 2).ray_intersect (Sphere.mk ⟨0, 0, 0⟩ 2).center
        ⟨1, 0, 0⟩).normal = -(⟨1, 0, 0⟩ : V3)) := by
  have hdd1 : dot (⟨0, 0, 1⟩ : V3) ⟨0, 0, 1⟩ = 1 := by simp [dot]
  have hc : dot ((⟨0, 0, 1⟩ : V3) - (Sphere.mk (⟨0, 0, 0⟩ : V3) 2).center)
      ((⟨0, 0, 1⟩ : V3) - (Sphere.mk (⟨0, 0, 0⟩ : V3) 2).center) -
      (Sphere.mk (⟨0, 0, 0⟩ : V3) 2).radius *
        (Sphere.mk (⟨0, 0, 0⟩ : V3) 2).radius < 0 := by
    show dot ((⟨0, 0, 1⟩ : V3) - ⟨0, 0, 0⟩) ((⟨0, 0, 1⟩ : V3) - ⟨0, 0, 0⟩) -
      (2 : ℝ) * 2 < 0
    norm_num [dot]
  have hdd2 : dot (⟨1, 0, 0⟩ : V3) ⟨1, 0, 0⟩ = 1 := by simp [dot]
  have hrpos : (0 : ℝ) < (Sphere.mk (⟨0, 0, 0⟩ : V3) 2).radius := by norm_num
  exact ⟨⟨hdd1, hc,
      (C9_ray_from_inside (Sphere.mk ⟨0, 0, 0⟩ 2) ⟨0, 0, 1⟩ ⟨0, 0, 1⟩).1 hdd1 hc⟩,
    hdd2, hrpos,
      (C9_ray_from_inside (Sphere.mk ⟨0, 0, 0⟩ 2) ⟨0, 0, 1⟩ ⟨1, 0, 0⟩).2 hdd2 hrpos⟩

/-! Embedding of `shaders.rs`: the vertex stage. -/

/-- Matrix type for 4x4 `f32` matrices (nalgebra `Mat4`), over ℝ. -/
abbrev Mat4 := Matrix (Fin 4) (Fin 4) ℝ

/-- Matrix type for 3x3 `f32` matrices (nalgebra `Mat3`), over ℝ. -/
abbrev Mat3 := Matrix (Fin 3) (Fin 3) ℝ

/-- Vector with 4 components (nalgebra `Vec4`). -/
structure V4 where
  x : ℝ
  y : ℝ
  z : ℝ
  w : ℝ

/-- Product `Mat4 * Vec4` (matrix times vector). -/
def mulVec4 (A : Mat4) (v : V4) : V4 :=
  ⟨A 0 0 * v.x + A 0 1 * v.y + A 0 2 * v.z + A 0 3 * v.w,
   A 1 0 * v.x + A 1 1 * v.y + A 1 2 * v.z + A 1 3 * v.w,
   A 2 0 * v.x + A 2 1 * v.y + A 2 2 * v.z + A 2 3 * v.w,
   A 3 0 * v.x + A 3 1 * v.y + A 3 2 * v.z + A 3 3 * v.w⟩

/-- Product `Mat3 * Vec3` (matrix times vector). -/
def mulVec3 (A : Mat3) (v : V3) : V3 :=
  ⟨A 0 0 * v.x + A 0 1 * v.y + A 0 2 * v.z,
   A 1 0 * v.x + A 1 1 * v.y + A 1 2 * v.z,
   A 2 0 * v.x + A 2 1 * v.y + A 2 2 * v.z⟩

/-- Function `nalgebra_glm::mat4_to_mat3`: the top-left 3x3 linear block. -/
def mat4_to_mat3 (A : Mat4) : Mat3 :=
  Matrix.of fun i j => A (Fin.castSucc i) (Fin.castSucc j)

/-- Method `Mat3::try_inverse`: `some` of the inverse when the matrix is
invertible (nonzero determinant), `none` otherwise. -/
def tryInverse (A : Mat3) : Option Mat3 :=
  if A.det = 0 then none else some A⁻¹

/-- The `FastNoiseLite` noise generator (external crate), abstracted as
a fixed pair of deterministic 2D/3D samplers. -/
structure Noise where
  get_noise_2d : ℝ → ℝ → ℝ
  get_noise_3d : ℝ → ℝ → ℝ → ℝ

/-- The `Uniforms` bundle of `main.rs`. -/
structure Uniforms where
  model_matrix : Mat4
  view_matrix : Mat4
  projection_matrix : Mat4
  viewport_matrix : Mat4
  time : ℕ
  noise : Noise

/-- Modelled from the spec: the `Vertex` record of the missing
`vertex.rs` — model-space position/normal/texcoords/color plus the
pipeline-computed screen position and transformed normal. -/
structure Vertex where
  position : V3
  normal : V3
  tex_coords : ℝ × ℝ
  color : Color
  transformed_position : V3
  transformed_normal : V3

/-- Function `vertex_shader` from `shaders.rs`: clip = P·V·M·[pos,1], perspective
divide by `w`, viewport map, and normal transform by the
inverse-transpose of the model's 3x3 block with identity fallback. -/
def vertex_shader (vertex : Vertex) (uniforms : Uniforms) : Vertex :=
  let position := V4.mk vertex.position.x vertex.position.y vertex.position.z 1
  let transformed :=
    mulVec4 (uniforms.projection_matrix * uniforms.view_matrix * uniforms.model_matrix)
      position
  let w := transformed.w
  let transformed_position :=
    V4.mk (transformed.x / w) (transformed.y / w) (transformed.z / w) 1
  let screen_position := mulVec4 uniforms.viewport_matrix transformed_position
  let model_mat3 := mat4_to_mat3 uniforms.model_matrix
  let normal_matrix := (tryInverse model_mat3.transpose).getD 1
  let transformed_normal := mulVec3 normal_matrix vertex.normal
  { vertex with
    transformed_position := V3.mk screen_position.x screen_position.y screen_position.z
    transformed_normal := transformed_normal }

theorem mulVec4_one (v : V4) : mulVec4 1 v = v := by
  cases v
  show V4.mk _ _ _ _ = _
  simp [mulVec4, Matrix.one_apply]

theorem mulVec3_one (v : V3) : mulVec3 1 v = v := by
  cases v
  show V3.mk _ _ _ = _
  simp [mulVec3, Matrix.one_apply]

theorem mat4_to_mat3_one : mat4_to_mat3 1 = 1 := by
  ext i j
  simp [mat4_to_mat3, Matrix.one_apply, Fin.castSucc_inj]

/-- Claim C4: with identity model/view/projection/viewport matrices,
`vertex_shader` returns the vertex's own position as
`transformed_position` and its own normal as `transformed_normal`. -/
theorem C4_identity_roundtrip (v : Vertex) (u : Uniforms)
    (hm : u.model_matrix = 1) (hv : u.view_matrix = 1)
    (hp : u.projection_matrix = 1) (hvp : u.viewport_matrix = 1) :
    (vertex_shader v u).transformed_position = v.position ∧
    (vertex_shader v u).transformed_normal = v.normal := by
  have hclip : mulVec4 (u.projection_matrix * u.view_matrix * u.model_matrix)
      (V4.mk v.position.x v.position.y v.position.z 1) =
      V4.mk v.position.x v.position.y v.position.z 1 := by
    rw [hm, hv, hp, one_mul, one_mul, mulVec4_one]
  have hnm : (tryInverse (mat4_to_mat3 u.model_matrix).transpose).getD 1 = 1 := by
    rw [hm, mat4_to_mat3_one, Matrix.transpose_one, tryInverse]
    rw [if_neg (by simp)]
    simp
  constructor
  · show V3.mk (mulVec4 u.viewport_matrix _).x (mulVec4 u.viewport_matrix _).y
        (mulVec4 u.viewport_matrix _).z = v.position
    rw [hvp, hclip]
    rw [mulVec4_one]
    show V3.mk (v.position.x / 1) (v.position.y / 1) (v.position.z / 1) = _
    simp
  · show mulVec3 ((tryInverse (mat4_to_mat3 u.model_matrix).transpose).getD 1)
        v.normal = v.normal
    rw [hnm, mulVec3_one]

/-- Witness for C4: a concrete vertex pushed through identity
uniforms. -/
theorem C4_identity_roundtrip_witness :
    (Uniforms.mk 1 1 1 1 0 ⟨fun _ _ => 0, fun _ _ _ => 0⟩).model_matrix = 1 ∧
    (Uniforms.mk 1 1 1 1 0 ⟨fun _ _ => 0, fun _ _ _ => 0⟩).view_matrix = 1 ∧
    (Uniforms.mk 1 1 1 1 0 ⟨fun _ _ => 0, fun _ _ _ => 0⟩).projection_matrix = 1 ∧
    (Uniforms.mk 1 1 1 1 0 ⟨fun _ _ => 0, fun _ _ _ => 0⟩).viewport_matrix = 1 ∧
    ((vertex_shader ⟨⟨1, 2, 3⟩, ⟨0, 1, 0⟩, (0, 0), ⟨0, 0, 0, 255⟩, ⟨0, 0, 0⟩, ⟨0, 0, 0⟩⟩
        (Uniforms.mk 1 1 1 1 0 ⟨fun _ _ => 0, fun _ _ _ => 0⟩)).transformed_position =
      (⟨1, 2, 3⟩ : V3) ∧
      (vertex_shader ⟨⟨1, 2, 3⟩, ⟨0, 1, 0⟩, (0, 0), ⟨0, 0, 0, 255⟩, ⟨0, 0, 0⟩, ⟨0, 0, 0⟩⟩
        (Uniforms.mk 1 1 1 1 0 ⟨fun _ _ => 0, fun _ _ _ => 0⟩)).transformed_normal =
      (⟨0, 1, 0⟩ : V3)) :=
  ⟨rfl, rfl, rfl, rfl,
    C4_identity_roundtrip
      ⟨⟨1, 2, 3⟩, ⟨0, 1, 0⟩, (0, 0), ⟨0, 0, 0, 255⟩, ⟨0, 0, 0⟩, ⟨0, 0, 0⟩⟩
      (Uniforms.mk 1 1 1 1 0 ⟨fun _ _ => 0, fun _ _ _ => 0⟩) rfl rfl rfl rfl⟩

/-- Claim C6: `vertex_shader` is total; when the 3x3 linear part of the
model matrix is singular the normal matrix falls back to the identity
(the transformed normal equals the input normal), and otherwise the
normal is multiplied by a genuine inverse of the transposed 3x3
block. -/
theorem C6_normal_matrix_fallback (v : Vertex) (u : Uniforms) :
    ((mat4_to_mat3 u.model_matrix).det = 0 →
      (vertex_shader v u).transformed_normal = v.normal) ∧
    ((mat4_to_mat3 u.model_matrix).det ≠ 0 →
      (mat4_to_mat3 u.model_matrix).transpose *
        ((tryInverse (mat4_to_mat3 u.model_matrix).transpose).getD 1) = 1 ∧
      (vertex_shader v u).transformed_normal =
        mulVec3 ((tryInverse (mat4_to_mat3 u.model_matrix).transpose).getD 1)
          v.normal) := by
  constructor
  · intro hdet
    have hdet' : (mat4_to_mat3 u.model_matrix).transpose.det = 0 := by
      rw [Matrix.det_transpose]
      exact hdet
    show mulVec3 ((tryInverse (mat4_to_mat3 u.model_matrix).transpose).getD 1)
        v.normal = v.normal
    rw [tryInverse, if_pos hdet']
    show mulVec3 1 v.normal = v.normal
    exact mulVec3_one v.normal
  · intro hdet
    have hdet' : (mat4_to_mat3 u.model_matrix).transpose.det ≠ 0 := by
      rw [Matrix.det_transpose]
      exact hdet
    constructor
    · rw [tryInverse, if_neg hdet']
      show (mat4_to_mat3 u.model_matrix).transpose *
          (mat4_to_mat3 u.model_matrix).transpose⁻¹ = 1
      exact Matrix.mul_nonsing_inv _ (isUnit_iff_ne_zero.2 hdet')
    · rfl

/-- Witness for C6: the singular branch at the zero model matrix and
the invertible branch at the identity model matrix. -/
theorem C6_normal_matrix_fallback_witness :
    ((mat4_to_mat3 (0 : Mat4)).det = 0 ∧
      (vertex_shader ⟨⟨1, 2, 3⟩, ⟨4, 5, 6⟩, (0, 0), ⟨0, 0, 0, 255⟩, ⟨0, 0, 0⟩, ⟨0, 0, 0⟩⟩
        (Uniforms.mk 0 1 1 1 0 ⟨fun _ _ => 0, fun _ _ _ => 0⟩)).transformed_normal =
        (⟨4, 5, 6⟩ : V3)) ∧
    ((mat4_to_mat3 (1 : Mat4)).det ≠ 0 ∧
      (mat4_to_mat3 (1 : Mat4)).transpose *
        ((tryInverse (mat4_to_mat3 (1 : Mat4)).transpose).getD 1) = 1) := by
  have h0 : (mat4_to_mat3 (0 : Mat4)).det = 0 := by
    have : mat4_to_mat3 (0 : Mat4) = 0 := by
      ext i j
      simp [mat4_to_mat3]
    rw [this]
    simp
  have h1 : (mat4_to_mat3 (1 : Mat4)).det ≠ 0 := by
    rw [mat4_to_mat3_one]
    simp
  refine ⟨⟨h0, ?_⟩, h1, ?_⟩
  · exact (C6_normal_matrix_fallback
      ⟨⟨1, 2, 3⟩, ⟨4, 5, 6⟩, (0, 0), ⟨0, 0, 0, 255⟩, ⟨0, 0, 0⟩, ⟨0, 0, 0⟩⟩
      (Uniforms.mk 0 1 1 1 0 ⟨fun _ _ => 0, fun _ _ _ => 0⟩)).1 h0
  · exact ((C6_normal_matrix_fallback
      ⟨⟨1, 2, 3⟩, ⟨4, 5, 6⟩, (0, 0), ⟨0, 0, 0, 255⟩, ⟨0, 0, 0⟩, ⟨0, 0, 0⟩⟩
      (Uniforms.mk 1 1 1 1 0 ⟨fun _ _ => 0, fun _ _ _ => 0⟩)).2 h1).1

/-! The fragment stage of `shaders.rs`. -/

/-- Screen-space 2D position of a fragment. -/
structure V2 where
  x : ℝ
  y : ℝ

/-- Modelled from the spec: the `Fragment` record of the missing
`fragment.rs` — screen position, interpolated depth and normal, the
object-space vertex position used as a noise coordinate, and a
precomputed scalar light intensity. -/
structure Fragment where
  position : V2
  depth : ℝ
  normal : V3
  intensity : ℝ
  vertex_position : V3

/-- Rust `f32::powf`, modelled by the real power. -/
def rustPowf (x y : ℝ) : ℝ := Real.rpow x y

/-- Rust `f32::fract`: the fractional part `x - trunc(x)`. -/
def rustFract (x : ℝ) : ℝ := x - (rustTruncR x : ℝ)

/-- The two draws the gas-giant shaders take from `rand::thread_rng()`:
one `gen_range(-0.03..0.03)` sample and one `gen_bool(0.5)` sample.
Passing them explicitly makes the hidden nondeterminism of `rand`
visible to the theorems. -/
structure Rng where
  range_draw : ℝ
  bool_draw : Bool

/-- The `ShaderType` enum of `shaders.rs`. -/
inductive ShaderType
  | GasGiant
  | ColdGasGiant
  | Solar
  | RockyPlanet
  | RockyPlanetVariant
  | AlienPlanet
  | GlacialTextured
  | Moon
  | Spaceship
  deriving DecidableEq, Repr

/-- Modelled from the spec: the linear color blend of the missing
`color.rs` (`Color::lerp`), channelwise over floats and cast back to
`u8`. -/
def Color.lerp (c1 c2 : Color) (t : ℝ) : Color :=
  ⟨rustU8ofR ((c1.r : ℝ) + ((c2.r : ℝ) - (c1.r : ℝ)) * t),
   rustU8ofR ((c1.g : ℝ) + ((c2.g : ℝ) - (c1.g : ℝ)) * t),
   rustU8ofR ((c1.b : ℝ) + ((c2.b : ℝ) - (c1.b : ℝ)) * t),
   c1.a⟩

/-- Modelled from the spec: scaling a color's channels by a float
(the `Mul<f32>` impl of the missing `color.rs`), saturating into
`[0, 255]`. -/
instance : HMul Color ℝ Color :=
  ⟨fun c t =>
    ⟨rustU8ofR ((c.r : ℝ) * t), rustU8ofR ((c.g : ℝ) * t),
     rustU8ofR ((c.b : ℝ) * t), c.a⟩⟩

/-- Modelled from the spec: the per-channel minimum-brightness floor of
the missing `color.rs` (`Color::limit_min`). -/
def Color.limit_min (c : Color) (m : ℕ) : Color :=
  ⟨max c.r m, max c.g m, max c.b m, c.a⟩

/-- Shader `blue_shader` from `shaders.rs`: the flat metallic
spaceship shader. -/
def blue_shader (fragment : Fragment) (uniforms : Uniforms) : Color :=
  let base_blue := Color.new 30 30 100
  let highlight_blue := Color.new 70 130 180
  let shadow_black := Color.new 0 0 0
  let gradient_factor := rustClamp (fragment.position.y / 10) 0 1
  let time_factor := rustClamp (Real.sin ((uniforms.time : ℝ) * 0.01) * 0.5 + 0.5) 0 1
  let brightness := rustClamp |fragment.normal.y| 0 1
  ((base_blue.lerp highlight_blue gradient_factor).lerp shadow_black
    (1 - brightness)).lerp (Color.new 50 50 100) (time_factor * 0.2)

/-- Shader `moon_shader` from `shaders.rs`. -/
def moon_shader (fragment : Fragment) (uniforms : Uniforms) : Color :=
  let position := fragment.vertex_position
  let time := (uniforms.time : ℝ) * 0.001
  let base_color := Color.new 180 180 180
  let crater_color := Color.new 100 100 100
  let dust_color := Color.new 150 150 150
  let craters :=
    |uniforms.noise.get_noise_3d (position.x * 150) (position.y * 150) (position.z * 150)|
  let dust := uniforms.noise.get_noise_3d (position.x * 80 + time) (position.y * 80)
    (position.z * 80)
  let surface_details :=
    |uniforms.noise.get_noise_3d (position.x * 200) (position.y * 200) (position.z * 200)|
  let final_color := base_color
  let final_color :=
    if craters > 0.7 then final_color.lerp crater_color ((craters - 0.7) * 2)
    else final_color
  let final_color := final_color.lerp dust_color (|dust| * 0.2)
  let final_color :=
    if surface_details > 0.8 then
      final_color.lerp crater_color ((surface_details - 0.8) * 0.5)
    else final_color
  let light_dir := (V3.mk 0.6 0.8 0.4).normalize
  let normal := position.normalize
  let lambertian := max (dot light_dir normal) 0
  let shading_factor := 0.75 + 0.25 * lambertian
  let final_color := final_color * shading_factor
  final_color * fragment.intensity

/-- The banded palette of `gas_giant_shader`. -/
def gasGiantBaseColors : List V3 :=
  [⟨110 / 255, 0 / 255, 90 / 255⟩,
   ⟨160 / 255, 20 / 255, 60 / 255⟩,
   ⟨130 / 255, 10 / 255, 80 / 255⟩,
   ⟨180 / 255, 40 / 255, 90 / 255⟩,
   ⟨140 / 255, 10 / 255, 70 / 255⟩]

/-- The distorted banding coordinate `distorted_y` of
`gas_giant_shader`. -/
def gasGiantDistortedY (fragment : Fragment) (uniforms : Uniforms) : ℝ :=
  let time := (uniforms.time : ℝ) * 0.001
  let dynamic_y := fragment.vertex_position.y + time
  let distortion_scale := (10 : ℝ)
  let distortion_value := uniforms.noise.get_noise_2d
    (fragment.vertex_position.x * distortion_scale) (dynamic_y * distortion_scale)
  dynamic_y + distortion_value * 0.1 + fragment.vertex_position.x * 0.05

/-- The continuous band index `band_index_float` of
`gas_giant_shader`. -/
def gasGiantBandIndexFloat (fragment : Fragment) (uniforms : Uniforms) : ℝ :=
  let band_frequency := (40 : ℝ)
  let band_sine := Real.sin (gasGiantDistortedY fragment uniforms * band_frequency)
  let band_variation := Real.sin (fragment.vertex_position.y * 10) * 0.3
  (band_sine + band_variation + 1) / 2 * (gasGiantBaseColors.length : ℝ)

/-- The palette index `band_index` of `gas_giant_shader`: a saturating
`as usize` cast followed by reduction modulo the palette length. -/
def gasGiantBandIndex (fragment : Fragment) (uniforms : Uniforms) : ℕ :=
  rustUsizeOfR (gasGiantBandIndexFloat fragment uniforms) % gasGiantBaseColors.length

/-- The index `next_band_index` of `gas_giant_shader`. -/
def gasGiantNextBandIndex (fragment : Fragment) (uniforms : Uniforms) : ℕ :=
  (gasGiantBandIndex fragment uniforms + 1) % gasGiantBaseColors.length

/-- Shader `gas_giant_shader` from `shaders.rs`; `rng` carries its two
`thread_rng` draws. -/
def gas_giant_shader (fragment : Fragment) (uniforms : Uniforms) (rng : Rng) : Color :=
  let base_colors := gasGiantBaseColors
  let distorted_y := gasGiantDistortedY fragment uniforms
  let band_frequency := (40 : ℝ)
  let band_index_float := gasGiantBandIndexFloat fragment uniforms
  let band_index := gasGiantBandIndex fragment uniforms
  let random_offset := rng.range_draw
  let base_band_color : V3 := base_colors.getD band_index V3.zeros +
    V3.mk random_offset random_offset random_offset
  let saturation_boost : ℝ := if rng.bool_draw then 1.2 else 1
  let boosted_band_color : V3 := base_band_color * saturation_boost
  let next_band_index := gasGiantNextBandIndex fragment uniforms
  let next_band_color : V3 := base_colors.getD next_band_index V3.zeros +
    V3.mk random_offset random_offset random_offset
  let interpolation_factor := rustFract band_index_float
  let interpolated_color := boosted_band_color.lerp next_band_color interpolation_factor
  let noise_scale_1 := (80 : ℝ)
  let noise_value_1 := uniforms.noise.get_noise_2d
    (fragment.vertex_position.x * noise_scale_1)
    (fragment.vertex_position.y * noise_scale_1)
  let noise_scale_2 := (40 : ℝ)
  let noise_value_2 := uniforms.noise.get_noise_2d
    (fragment.vertex_position.x * noise_scale_2)
    (fragment.vertex_position.y * noise_scale_2)
  let perturbed_color : V3 := interpolated_color * ((0.95 : ℝ) + (noise_value_1 + noise_value_2) * 0.015)
  let internal_shadow := |Real.sin (distorted_y * band_frequency * 0.1)| * 0.15
  let shaded_color : V3 := perturbed_color * ((1 : ℝ) - internal_shadow)
  let shadow_noise_scale := (50 : ℝ)
  let shadow_noise := uniforms.noise.get_noise_2d
    (fragment.vertex_position.x * shadow_noise_scale)
    (fragment.vertex_position.y * shadow_noise_scale)
  let shadow_variation := 1 - shadow_noise * 0.05
  let final_shaded_color : V3 := shaded_color * shadow_variation
  let spot_noise_scale := (25 : ℝ)
  let spot_noise := uniforms.noise.get_noise_2d
    (fragment.vertex_position.x * spot_noise_scale)
    (fragment.vertex_position.y * spot_noise_scale)
  let final_color : V3 :=
    if spot_noise > 0.75 then
      let mix_factor := (spot_noise - 0.75) / 0.25
      let storm_color := V3.mk 0.95 0.85 0.65
      final_shaded_color.lerp storm_color mix_factor
    else final_shaded_color
  let normal := fragment.vertex_position.normalize
  let light_dir := (V3.mk 0.6 0.8 0.4).normalize
  let lambertian := max (dot light_dir normal) 0
  let shading_factor := 0.75 + 0.25 * lambertian
  let final_color : V3 := final_color * shading_factor
  let gradient_shading := (1 : ℝ) - |fragment.vertex_position.y| * 0.15
  let final_color : V3 := final_color * gradient_shading
  let view_dir := (V3.mk 0 0 1).normalize
  let reflect_dir := ((2 * dot normal light_dir * normal - light_dir : V3)).normalize
  let specular_intensity := rustPowf (max (dot view_dir reflect_dir) 0) 10
  let final_color : V3 := final_color + V3.mk 1 1 1 * specular_intensity * (0.15 : ℝ)
  let final_color : V3 := final_color * fragment.intensity
  Color.new (rustU8ofR (final_color.x * 255)) (rustU8ofR (final_color.y * 255))
    (rustU8ofR (final_color.z * 255))

/-- The banded palette of `cold_gas_giant_shader`. -/
def coldGasGiantBaseColors : List V3 :=
  [⟨100 / 255, 150 / 255, 180 / 255⟩,
   ⟨120 / 255, 180 / 255, 200 / 255⟩,
   ⟨90 / 255, 140 / 255, 170 / 255⟩,
   ⟨130 / 255, 190 / 255, 210 / 255⟩,
   ⟨80 / 255, 120 / 255, 160 / 255⟩]

/-- The distorted banding coordinate of `cold_gas_giant_shader`
(includes the extra `wind_tilt` term). -/
def coldGasGiantDistortedY (fragment : Fragment) (uniforms : Uniforms) : ℝ :=
  let time := (uniforms.time : ℝ) * 0.001
  let dynamic_y := fragment.vertex_position.y + time
  let distortion_scale := (10 : ℝ)
  let distortion_value := uniforms.noise.get_noise_2d
    (fragment.vertex_position.x * distortion_scale) (dynamic_y * distortion_scale)
  let wind_tilt := fragment.vertex_position.x * 0.02
  dynamic_y + wind_tilt + distortion_value * 0.1 + fragment.vertex_position.x * 0.05

/-- The continuous band index of `cold_gas_giant_shader`. -/
def coldGasGiantBandIndexFloat (fragment : Fragment) (uniforms : Uniforms) : ℝ :=
  let band_frequency := (40 : ℝ)
  let band_sine := Real.sin (coldGasGiantDistortedY fragment uniforms * band_frequency)
  let band_variation := Real.sin (fragment.vertex_position.y * 10) * 0.3
  (band_sine + band_variation + 1) / 2 * (coldGasGiantBaseColors.length : ℝ)

/-- The palette index of `cold_gas_giant_shader`. -/
def coldGasGiantBandIndex (fragment : Fragment) (uniforms : Uniforms) : ℕ :=
  rustUsizeOfR (coldGasGiantBandIndexFloat fragment uniforms) %
    coldGasGiantBaseColors.length

/-- The next palette index of `cold_gas_giant_shader`. -/
def coldGasGiantNextBandIndex (fragment : Fragment) (uniforms : Uniforms) : ℕ :=
  (coldGasGiantBandIndex fragment uniforms + 1) % coldGasGiantBaseColors.length

/-- Shader `cold_gas_giant_shader` from `shaders.rs`; `rng` carries its
two `thread_rng` draws. -/
def cold_gas_giant_shader (fragment : Fragment) (uniforms : Uniforms) (rng : Rng) :
    Color :=
  let base_colors := coldGasGiantBaseColors
  let distorted_y := coldGasGiantDistortedY fragment uniforms
  let band_frequency := (40 : ℝ)
  let band_index_float := coldGasGiantBandIndexFloat fragment uniforms
  let band_index := coldGasGiantBandIndex fragment uniforms
  let random_offset := rng.range_draw
  let base_band_color : V3 := base_colors.getD band_index V3.zeros +
    V3.mk random_offset random_offset random_offset
  let saturation_boost : ℝ := if rng.bool_draw then 1.2 else 1
  let boosted_band_color : V3 := base_band_color * saturation_boost
  let next_band_index := coldGasGiantNextBandIndex fragment uniforms
  let next_band_color : V3 := base_colors.getD next_band_index V3.zeros +
    V3.mk random_offset random_offset random_offset
  let interpolation_factor := rustFract band_index_float
  let interpolated_color := boosted_band_color.lerp next_band_color interpolation_factor
  let noise_scale_1 := (80 : ℝ)
  let noise_value_1 := uniforms.noise.get_noise_2d
    (fragment.vertex_position.x * noise_scale_1)
    (fragment.vertex_position.y * noise_scale_1)
  let noise_scale_2 := (40 : ℝ)
  let noise_value_2 := uniforms.noise.get_noise_2d
    (fragment.vertex_position.x * noise_scale_2)
    (fragment.vertex_position.y * noise_scale_2)
  let perturbed_color : V3 := interpolated_color * ((0.95 : ℝ) + (noise_value_1 + noise_value_2) * 0.015)
  let internal_shadow := |Real.sin (distorted_y * band_frequency * 0.1)| * 0.15
  let shaded_color : V3 := perturbed_color * ((1 : ℝ) - internal_shadow)
  let shadow_noise_scale := (50 : ℝ)
  let shadow_noise := uniforms.noise.get_noise_2d
    (fragment.vertex_position.x * shadow_noise_scale)
    (fragment.vertex_position.y * shadow_noise_scale)
  let shadow_variation := 1 - shadow_noise * 0.05
  let final_shaded_color : V3 := shaded_color * shadow_variation
  let spot_noise_scale := (15 : ℝ)
  let spot_noise := uniforms.noise.get_noise_2d
    (fragment.vertex_position.x * spot_noise_scale)
    (fragment.vertex_position.y * spot_noise_scale)
  let final_color : V3 :=
    if spot_noise > 0.7 then
      let mix_factor := (spot_noise - 0.7) / 0.3
      let storm_color := V3.mk 0.75 0.85 0.95
      final_shaded_color.lerp storm_color mix_factor
    else final_shaded_color
  let normal := fragment.vertex_position.normalize
  let light_dir := (V3.mk 0.6 0.8 0.4).normalize
  let lambertian := max (dot light_dir normal) 0
  let shading_factor := 0.75 + 0.25 * lambertian
  let final_color : V3 := final_color * shading_factor
  let gradient_shading := (1 : ℝ) - |fragment.vertex_position.y| * 0.15
  let final_color : V3 := final_color * gradient_shading
  let view_dir := (V3.mk 0 0 1).normalize
  let reflect_dir := ((2 * dot normal light_dir * normal - light_dir : V3)).normalize
  let specular_intensity := rustPowf (max (dot view_dir reflect_dir) 0) 10
  let final_color : V3 := final_color + V3.mk 1 1 1 * specular_intensity * (0.15 : ℝ)
  let final_color : V3 := final_color * fragment.intensity
  Color.new (rustU8ofR (final_color.x * 255)) (rustU8ofR (final_color.y * 255))
    (rustU8ofR (final_color.z * 255))

/-- Shader `solar_shader` from `shaders.rs`. -/
def solar_shader (fragment : Fragment) (uniforms : Uniforms) : Color :=
  let bright_color := Color.new 255 240 70
  let mid_color := Color.new 255 100 0
  let dark_color := Color.new 70 10 0
  let position := V3.mk fragment.vertex_position.x fragment.vertex_position.y
    fragment.depth
  let base_frequency := (0.04 : ℝ) + position.x * 0.01
  let pulsate_amplitude := (0.6 : ℝ) + position.y * 0.02
  let t := (uniforms.time : ℝ) * 0.02
  let pulsate := Real.sin (t * base_frequency) * pulsate_amplitude
  let zoom := (1500 : ℝ)
  let noise_value1 := uniforms.noise.get_noise_3d (position.x * zoom)
    (position.y * zoom) ((position.z + pulsate) * zoom)
  let noise_value2 := uniforms.noise.get_noise_3d ((position.x + 300) * zoom)
    ((position.y + 300) * zoom) ((position.z + 300 + pulsate) * zoom)
  let noise_value := (noise_value1 + noise_value2) * 0.5
  let fine_noise := uniforms.noise.get_noise_3d (position.x * 500)
    (position.y * 500) ((position.z + pulsate) * 500)
  let adjusted_noise := (noise_value + fine_noise * 0.6) * 1.8 - 0.4
  let high_freq_noise := uniforms.noise.get_noise_3d (position.x * 2000)
    (position.y * 2000) ((position.z + pulsate) * 2000) * 0.03
  let bands_pattern1 := Real.sin (position.y * 6 + noise_value * 25 + t * 0.15) * 0.2
  let bands_pattern2 := Real.sin (position.y * 10 + noise_value * 50 + t * 0.08) * 0.1
  let combined_bands := bands_pattern1 + bands_pattern2 + high_freq_noise
  let color :=
    if adjusted_noise + combined_bands > 0.4 then
      mid_color.lerp bright_color (adjusted_noise + combined_bands - 0.4)
    else
      dark_color.lerp mid_color ((adjusted_noise + combined_bands) * 2.5)
  let pulse_effect := (1 : ℝ) + 0.15 * Real.sin (t * 1.5 + position.x * 0.05)
  let final_color : Color := color * pulse_effect
  final_color * fragment.intensity

/-- Shader `rocky_planet_shader` from `shaders.rs`. -/
def rocky_planet_shader (fragment : Fragment) (uniforms : Uniforms) : Color :=
  let bright_color := Color.new 230 120 70
  let mid_color := Color.new 140 70 40
  let dark_color := Color.new 30 10 5
  let position := V3.mk fragment.vertex_position.x fragment.vertex_position.y
    fragment.depth
  let zoom := (1200 : ℝ)
  let noise_value1 := uniforms.noise.get_noise_3d (position.x * zoom)
    (position.y * zoom) (position.z * zoom)
  let noise_value2 := uniforms.noise.get_noise_3d ((position.x + 400) * zoom)
    ((position.y + 400) * zoom) ((position.z + 400) * zoom)
  let noise_value := (noise_value1 + noise_value2) * 0.5
  let crater_frequency := (1.5 : ℝ)
  let crater_amplitude := (2 : ℝ)
  let crater_value := Real.sin (position.x * crater_frequency + position.y * crater_frequency) *
    Real.cos (position.x * crater_frequency - position.y * crater_frequency) *
    crater_amplitude
  let combined_value := rustClamp (noise_value + crater_value) 0 1
  let fine_noise := uniforms.noise.get_noise_3d (position.x * 1600)
    (position.y * 1600) (position.z * 1600) * 0.3
  let combined_value := rustClamp (combined_value + fine_noise) 0 1
  let fracture_noise := uniforms.noise.get_noise_3d (position.x * 2000)
    (position.y * 2000) (position.z * 2000) * 0.15
  let combined_value := rustClamp (combined_value + fracture_noise) 0 1
  let color :=
    if combined_value > 0.5 then
      mid_color.lerp bright_color ((combined_value - 0.5) * 1.5)
    else
      dark_color.lerp mid_color (combined_value * 2)
  let light_factor := Real.sin (position.y * 0.5 + (uniforms.time : ℝ) * 0.0015) * 0.1 + 1
  let directional_light := Real.cos (position.x * 0.3 + (uniforms.time : ℝ) * 0.002) * 0.05 + 1
  let final_light_factor := light_factor * directional_light
  let final_color : Color := color * final_light_factor
  let pulsate_frequency := (0.06 : ℝ)
  let pulsate_amplitude := (0.1 : ℝ)
  let pulsate := Real.sin ((uniforms.time : ℝ) * pulsate_frequency + position.x * 0.02 +
    position.y * 0.02) * pulsate_amplitude
  let final_color : Color := final_color * ((1 : ℝ) + pulsate)
  let shadow_texture_noise := uniforms.noise.get_noise_3d (position.x * 2500)
    (position.y * 2500) (position.z * 2500) * 0.3
  let final_color : Color := final_color * ((1 : ℝ) + shadow_texture_noise)
  let highlight_texture_noise := uniforms.noise.get_noise_3d (position.x * 3000)
    (position.y * 3000) (position.z * 3000) * 0.25
  let final_color : Color := final_color * ((1 : ℝ) + highlight_texture_noise)
  let depth_variation := uniforms.noise.get_noise_3d (position.x * 3500)
    (position.y * 3500) (position.z * 3500) * 0.1
  let final_color : Color := final_color * ((1 : ℝ) + depth_variation)
  final_color * fragment.intensity

/-- Shader `rocky_planet_variant_shader` from `shaders.rs`: the sandy
palette variant of the rocky shader. -/
def rocky_planet_variant_shader (fragment : Fragment) (uniforms : Uniforms) : Color :=
  let bright_color := Color.new 237 201 175
  let mid_color := Color.new 193 154 107
  let dark_color := Color.new 139 108 66
  let position := V3.mk fragment.vertex_position.x fragment.vertex_position.y
    fragment.depth
  let zoom := (1000 : ℝ)
  let noise_value1 := uniforms.noise.get_noise_3d (position.x * zoom)
    (position.y * zoom) (position.z * zoom)
  let noise_value2 := uniforms.noise.get_noise_3d ((position.x + 400) * zoom)
    ((position.y + 400) * zoom) ((position.z + 400) * zoom)
  let noise_value := (noise_value1 + noise_value2) * 0.5
  let crater_frequency := (1.5 : ℝ)
  let crater_amplitude := (2 : ℝ)
  let crater_value := Real.sin (position.x * crater_frequency + position.y * crater_frequency) *
    Real.cos (position.x * crater_frequency - position.y * crater_frequency) *
    crater_amplitude
  let combined_value := rustClamp (noise_value + crater_value) 0 1
  let fine_noise := uniforms.noise.get_noise_3d (position.x * 1600)
    (position.y * 1600) (position.z * 1600) * 0.3
  let combined_value := rustClamp (combined_value + fine_noise) 0 1
  let fracture_noise := uniforms.noise.get_noise_3d (position.x * 2000)
    (position.y * 2000) (position.z * 2000) * 0.15
  let combined_value := rustClamp (combined_value + fracture_noise) 0 1
  let color :=
    if combined_value > 0.5 then
      mid_color.lerp bright_color ((combined_value - 0.5) * 1.5)
    else
      dark_color.lerp mid_color (combined_value * 2)
  let light_factor := Real.sin (position.y * 0.5 + (uniforms.time : ℝ) * 0.0015) * 0.1 + 1
  let directional_light := Real.cos (position.x * 0.3 + (uniforms.time : ℝ) * 0.002) * 0.05 + 1
  let final_light_factor := light_factor * directional_light
  let final_color : Color := color * final_light_factor
  let pulsate_frequency := (0.04 : ℝ)
  let pulsate_amplitude := (0.08 : ℝ)
  let pulsate := Real.sin ((uniforms.time : ℝ) * pulsate_frequency + position.x * 0.02 +
    position.y * 0.02) * pulsate_amplitude
  let final_color : Color := final_color * ((1 : ℝ) + pulsate)
  let shadow_texture_noise := uniforms.noise.get_noise_3d (position.x * 2500)
    (position.y * 2500) (position.z * 2500) * 0.3
  let final_color : Color := final_color * ((1 : ℝ) + shadow_texture_noise)
  let highlight_texture_noise := uniforms.noise.get_noise_3d (position.x * 3000)
    (position.y * 3000) (position.z * 3000) * 0.25
  let final_color : Color := final_color * ((1 : ℝ) + highlight_texture_noise)
  let depth_variation := uniforms.noise.get_noise_3d (position.x * 3500)
    (position.y * 3500) (position.z * 3500) * 0.1
  let final_color : Color := final_color * ((1 : ℝ) + depth_variation)
  final_color * fragment.intensity

/-- Shader `alien_planet_shader` from `shaders.rs`. -/
def alien_planet_shader (fragment : Fragment) (uniforms : Uniforms) : Color :=
  let ocean_color := Color.new 25 25 112
  let flora_color := Color.new 110 62 136
  let alien_color := Color.new 13 246 243
  let position := V3.mk fragment.vertex_position.x fragment.vertex_position.y
    fragment.depth
  let zoom := (450 : ℝ)
  let time_factor := (uniforms.time : ℝ) * 0.15
  let noise_value1 := uniforms.noise.get_noise_3d (position.x * zoom + time_factor)
    (position.y * zoom + time_factor) (position.z * zoom + time_factor)
  let noise_value2 := uniforms.noise.get_noise_3d
    ((position.x + 300) * zoom + time_factor) ((position.y + 300) * zoom + time_factor)
    ((position.z + 300) * zoom + time_factor)
  let noise_value := (noise_value1 + noise_value2) * 0.5
  let drift_noise := uniforms.noise.get_noise_3d (position.x * 0.05 + time_factor)
    (position.y * 0.05 + time_factor) (position.z * 0.05 + time_factor)
  let combined_value := rustClamp (noise_value + drift_noise * 0.4) 0 1
  let base_color :=
    if combined_value > 0.75 then alien_color
    else if combined_value > 0.4 then flora_color
    else ocean_color
  let texture_zoom1 := (700 : ℝ)
  let texture_noise1 := uniforms.noise.get_noise_3d (position.x * texture_zoom1)
    (position.y * texture_zoom1) (position.z * texture_zoom1) * 0.3
  let texture_zoom2 := (1000 : ℝ)
  let texture_noise2 := uniforms.noise.get_noise_3d (position.x * texture_zoom2)
    (position.y * texture_zoom2) (position.z * texture_zoom2) * 0.25
  let texture_zoom3 := (1500 : ℝ)
  let texture_noise3 := uniforms.noise.get_noise_3d (position.x * texture_zoom3)
    (position.y * texture_zoom3) (position.z * texture_zoom3) * 0.2
  let texture_zoom4 := (2000 : ℝ)
  let texture_noise4 := uniforms.noise.get_noise_3d (position.x * texture_zoom4)
    (position.y * texture_zoom4) (position.z * texture_zoom4) * 0.15
  let background_noise1 := uniforms.noise.get_noise_3d (position.x * 2500)
    (position.y * 2500) (position.z * 2500) * 0.15
  let background_noise2 := uniforms.noise.get_noise_3d (position.x * 3500)
    (position.y * 3500) (position.z * 3500) * 0.1
  let texture_combined := rustClamp (texture_noise1 + texture_noise2 + texture_noise3 +
    texture_noise4 + background_noise1 + background_noise2) 0 1
  let texturized_color : Color := base_color * ((1 : ℝ) + texture_combined)
  let limited_texturized_color := texturized_color.limit_min 50
  let light_factor := Real.sin (position.y * 0.5 + (uniforms.time : ℝ) * 0.001) * 0.2 + 1
  let directional_light := Real.cos (position.x * 0.4 + (uniforms.time : ℝ) * 0.0015) * 0.2 + 1
  let final_light_factor := light_factor * directional_light
  let illuminated_color : Color := limited_texturized_color * final_light_factor
  let final_color := illuminated_color.limit_min 50
  final_color * fragment.intensity

/-- Shader `glacial_textured_shader` from `shaders.rs`. -/
def glacial_textured_shader (fragment : Fragment) (uniforms : Uniforms) : Color :=
  let ice_blue := Color.new 173 216 230
  let position := V3.mk fragment.vertex_position.x fragment.vertex_position.y
    fragment.depth
  let zoom := (100 : ℝ)
  let time_factor := (uniforms.time : ℝ) * 0.1
  let base_noise := uniforms.noise.get_noise_3d (position.x * zoom)
    (position.y * zoom) (position.z * zoom) * 0.6
  let detail_noise1 := uniforms.noise.get_noise_3d (position.x * 700)
    (position.y * 700) (position.z * 700) * 0.5
  let detail_noise2 := uniforms.noise.get_noise_3d (position.x * 1200 + time_factor)
    (position.y * 1200 + time_factor) (position.z * 1200 + time_factor) * 0.4
  let fine_detail_noise := uniforms.noise.get_noise_3d (position.x * 2500)
    (position.y * 2500) (position.z * 2500) * 0.3
  let combined_texture := rustClamp (base_noise + detail_noise1 + detail_noise2 +
    fine_detail_noise) 0 1
  let texturized_color : Color := ice_blue * ((1 : ℝ) + combined_texture)
  let flicker_effect := Real.sin (position.x * 0.05 + (uniforms.time : ℝ) * 0.005) * 0.1 + 0.9
  let flicker_light := Real.cos (position.y * 0.03 + (uniforms.time : ℝ) * 0.007) * 0.1 + 0.95
  let final_flicker_factor := flicker_effect * flicker_light
  let illuminated_color : Color := texturized_color * final_flicker_factor
  let final_color := illuminated_color.limit_min 60
  final_color * fragment.intensity

/-- The `fragment_shader` dispatch of `shaders.rs`; the `rng` argument
carries the `thread_rng` draws consumed only by the two gas-giant
shaders. -/
def fragment_shader (fragment : Fragment) (uniforms : Uniforms)
    (shader_type : ShaderType) (rng : Rng) : Color :=
  match shader_type with
  | ShaderType.GasGiant => gas_giant_shader fragment uniforms rng
  | ShaderType.ColdGasGiant => cold_gas_giant_shader fragment uniforms rng
  | ShaderType.Solar => solar_shader fragment uniforms
  | ShaderType.RockyPlanet => rocky_planet_shader fragment uniforms
  | ShaderType.RockyPlanetVariant => rocky_planet_variant_shader fragment uniforms
  | ShaderType.AlienPlanet => alien_planet_shader fragment uniforms
  | ShaderType.GlacialTextured => glacial_textured_shader fragment uniforms
  | ShaderType.Moon => moon_shader fragment uniforms
  | ShaderType.Spaceship => blue_shader fragment uniforms

/-- Claim C5: for every shader variant other than the two gas giants,
`fragment_shader` is independent of the random draws — two calls with
identical fragment, uniforms and variant return bit-identical colors
regardless of what `thread_rng` produced. -/
theorem C5_shader_determinism (f : Fragment) (u : Uniforms) (st : ShaderType)
    (h1 : st ≠ ShaderType.GasGiant) (h2 : st ≠ ShaderType.ColdGasGiant)
    (r1 r2 : Rng) :
    fragment_shader f u st r1 = fragment_shader f u st r2 := by
  cases st
  case GasGiant => exact absurd rfl h1
  case ColdGasGiant => exact absurd rfl h2
  all_goals rfl

/-- Witness for C5: the solar shader evaluated with two different
random draws on a concrete fragment. -/
theorem C5_shader_determinism_witness :
    (ShaderType.Solar ≠ ShaderType.GasGiant ∧
      ShaderType.Solar ≠ ShaderType.ColdGasGiant) ∧
    fragment_shader ⟨⟨0, 0⟩, 0, ⟨0, 1, 0⟩, 1, ⟨0, 0, 1⟩⟩
        (Uniforms.mk 1 1 1 1 0 ⟨fun _ _ => 0, fun _ _ _ => 0⟩)
        ShaderType.Solar ⟨0, false⟩ =
      fragment_shader ⟨⟨0, 0⟩, 0, ⟨0, 1, 0⟩, 1, ⟨0, 0, 1⟩⟩
        (Uniforms.mk 1 1 1 1 0 ⟨fun _ _ => 0, fun _ _ _ => 0⟩)
        ShaderType.Solar ⟨1, true⟩ :=
  ⟨⟨by decide, by decide⟩,
    C5_shader_determinism ⟨⟨0, 0⟩, 0, ⟨0, 1, 0⟩, 1, ⟨0, 0, 1⟩⟩
      (Uniforms.mk 1 1 1 1 0 ⟨fun _ _ => 0, fun _ _ _ => 0⟩)
      ShaderType.Solar (by decide) (by decide) ⟨0, false⟩ ⟨1, true⟩⟩

/-- Claim C10: the palette indices computed by the gas-giant shaders
are always strictly below the palette length 5 — the saturating
float-to-usize cast is reduced modulo the palette length, and the next
index is again reduced modulo it — so the palette indexing of
`gas_giant_shader` and `cold_gas_giant_shader` is always in bounds and
never panics. -/
theorem C10_band_index_in_bounds (f : Fragment) (u : Uniforms) :
    gasGiantBandIndex f u < gasGiantBaseColors.length ∧
    gasGiantNextBandIndex f u < gasGiantBaseColors.length ∧
    coldGasGiantBandIndex f u < coldGasGiantBaseColors.length ∧
    coldGasGiantNextBandIndex f u < coldGasGiantBaseColors.length ∧
    gasGiantBaseColors.length = 5 ∧ coldGasGiantBaseColors.length = 5 :=
  ⟨Nat.mod_lt _ (by decide), Nat.mod_lt _ (by decide),
    Nat.mod_lt _ (by decide), Nat.mod_lt _ (by decide), rfl, rfl⟩

/-- Claim C7: `move_center` translates both `eye` and `center` by the
given vector, resets `up` to world-up `(0,1,0)` and leaves
`has_changed` untouched, while `orbit`, `move_vertical` and `zoom` all
set `has_changed` to `true`. -/
theorem C7_move_center_flag (c : Camera) (v : V3) (dy dp dv dz : ℝ) :
    (c.move_center v).eye = c.eye + v ∧
    (c.move_center v).center = c.center + v ∧
    (c.move_center v).up = V3.mk 0 1 0 ∧
    (c.move_center v).has_changed = c.has_changed ∧
    (c.orbit dy dp).has_changed = true ∧
    (c.move_vertical dv).has_changed = true ∧
    (c.zoom dz).has_changed = true :=
  ⟨rfl, rfl, rfl, rfl, rfl, rfl, rfl⟩

end

end SolarSys
